import Mathlib

/-!
Verification development for the `ragflow-knowledge-mcp-server` repository: a
shallow embedding of its configuration-cascade resolution model (property
resolvers, configuration loader) and its tool-dispatch / validation /
error-mapping pipeline (search handler and downstream retrieval client),
together with theorems settling the specification's claims about them.

Python scalar values are embedded as an inductive `PVal`; Python floats are
modelled as rationals; the process environment is an explicit association
list; the downstream HTTP exchange is an explicit response value passed to
the client, which records whether a request body was built and sent.
-/

namespace Ragflow

/-- Python scalar values as they occur in YAML-derived property dictionaries
and tool-call argument maps.  `pynone` is Python `None`; floats are modelled
as rationals.  (A Python `bool` is a subclass of `int`; the `isinstance`
helpers below reproduce that.) -/
inductive PVal where
  | pynone
  | pystr (s : String)
  | pyint (n : Int)
  | pybool (b : Bool)
  | pyfloat (q : ℚ)
deriving DecidableEq

/-- `isinstance(v, str)`. -/
def PVal.isinstance_str : PVal → Bool
  | .pystr _ => true
  | _ => false

/-- `isinstance(v, int)`: true for `int` and for `bool` (a subclass of `int`). -/
def PVal.isinstance_int : PVal → Bool
  | .pyint _ => true
  | .pybool _ => true
  | _ => false

/-- `isinstance(v, bool)`. -/
def PVal.isinstance_bool : PVal → Bool
  | .pybool _ => true
  | _ => false

/-- `isinstance(v, float)`. -/
def PVal.isinstance_float : PVal → Bool
  | .pyfloat _ => true
  | _ => false

/-- `isinstance(v, (int, float))`. -/
def PVal.isinstance_int_or_float : PVal → Bool
  | .pyint _ => true
  | .pybool _ => true
  | .pyfloat _ => true
  | _ => false

/-- Python truthiness of a scalar: `None`, `""`, `0`, `False`, `0.0` are falsy. -/
def PVal.truthy : PVal → Bool
  | .pynone => false
  | .pystr s => s ≠ ""
  | .pyint n => n ≠ 0
  | .pybool b => b
  | .pyfloat q => q ≠ 0

/-- The numeric value of a `PVal` that passed an `isinstance(_, int)` check
(`True` counts as 1, `False` as 0); 0 for the unreachable other cases. -/
def PVal.toInt : PVal → Int
  | .pyint n => n
  | .pybool b => if b then 1 else 0
  | _ => 0

/-- The numeric value of a `PVal` that passed an `isinstance(_, (int, float))`
check, as `float(value)` computes it; 0 for the unreachable other cases. -/
def PVal.toRat : PVal → ℚ
  | .pyint n => mkRat n 1
  | .pybool b => if b then 1 else 0
  | .pyfloat q => q
  | _ => 0

/-- Python `s.strip()`: whitespace removed from both ends.  (Defined over
the character list so that it evaluates inside the kernel.) -/
def pyStrip (s : String) : String :=
  String.mk (((s.toList.dropWhile Char.isWhitespace).reverse.dropWhile
    Char.isWhitespace).reverse)

/-- Python `s.strip().lower()`. -/
def pyLowerStrip (s : String) : String :=
  String.mk ((pyStrip s).toList.map Char.toLower)

/-- Python `str(float)` uses the shortest decimal representation of a binary
float.  Floats are rationals here, and this rendering is used only where the
theorems below depend on nothing more than (a) the text being non-blank and
(b) the text of a non-integral float not parsing as an int: an integral
value prints as `"2.0"`-style text and any other value keeps the rational's
own `num/den` rendering. -/
def pyFloatStr (q : ℚ) : String :=
  if q.den = 1 then toString q.num ++ ".0"
  else toString q.num ++ "/" ++ toString q.den

/-- Python `str(value)` on a scalar (`str(None) = "None"`, `str(True) = "True"`). -/
def pyStr : PVal → String
  | .pynone => "None"
  | .pystr s => s
  | .pyint n => toString n
  | .pybool b => if b then "True" else "False"
  | .pyfloat q => pyFloatStr q

/-- The value of a non-empty all-digit character list, base 10. -/
def digitsToNat? (cs : List Char) : Option Nat :=
  if cs.isEmpty then none
  else if cs.all (·.isDigit) then
    some (cs.foldl (fun a c => a * 10 + (c.toNat - 48)) 0)
  else none

/-- Python `int(s)` on a base-10 string literal: surrounding whitespace and a
single leading sign are accepted, everything else must be ASCII digits.
(Digit-group underscores and non-ASCII digits are not modelled.) -/
def pyParseInt (s : String) : Option Int :=
  match (pyStrip s).toList with
  | '-' :: cs => (digitsToNat? cs).map (fun n => -(n : Int))
  | '+' :: cs => (digitsToNat? cs).map (fun n => (n : Int))
  | cs => (digitsToNat? cs).map (fun n => (n : Int))

/-- Splitting a character list at every separator, like `str.split`:
`splitChars (· == '.') "a.b"` gives `["a", "b"]`, and separators at the ends
produce empty groups. -/
def splitChars (p : Char → Bool) : List Char → List (List Char)
  | [] => [[]]
  | c :: cs =>
    if p c then [] :: splitChars p cs
    else
      match splitChars p cs with
      | h :: t => (c :: h) :: t
      | [] => [[c]]

/-- The mantissa of a Python float literal — `d`, `d.d`, `d.` or `.d` — as
the pair of its digit value and its count of fractional digits: the mantissa
denotes `value / 10 ^ fracDigits`. -/
def pyParseMantissa (m : List Char) : Option (Nat × Nat) :=
  match splitChars (· == '.') m with
  | [ip] => (digitsToNat? ip).map (fun n => (n, 0))
  | [ip, fp] =>
    if ip.isEmpty && fp.isEmpty then none
    else
      let ipn := if ip.isEmpty then some 0 else digitsToNat? ip
      let fpn := if fp.isEmpty then some 0 else digitsToNat? fp
      match ipn, fpn with
      | some a, some b => some (a * 10 ^ fp.length + b, fp.length)
      | _, _ => none
  | _ => none

/-- The exponent of a Python float literal: an optionally signed digit
string, with no interior whitespace. -/
def pyParseExponent (cs : List Char) : Option Int :=
  match cs with
  | '-' :: ds => (digitsToNat? ds).map (fun n => -(n : Int))
  | '+' :: ds => (digitsToNat? ds).map (fun n => (n : Int))
  | ds => (digitsToNat? ds).map (fun n => (n : Int))

/-- Python `float(s)` on a decimal literal with optional sign, fraction and
exponent.  (`inf`/`nan` literals and digit-group underscores are not
modelled; no theorem below evaluates them.) -/
def pyParseFloat (s : String) : Option ℚ :=
  let t := (pyStrip s).toList
  let neg := t.head? == some '-'
  let body := match t with
    | '-' :: cs => cs
    | '+' :: cs => cs
    | cs => cs
  let signed : Nat → Int := fun n => if neg then -(n : Int) else (n : Int)
  match splitChars (fun c => c == 'e' || c == 'E') body with
  | [mant] =>
    (pyParseMantissa mant).map (fun p => mkRat (signed p.1) (10 ^ p.2))
  | [mant, ex] =>
    match pyParseMantissa mant, pyParseExponent ex with
    | some p, some e =>
      some (if 0 ≤ e then mkRat (signed p.1 * ((10 : Int) ^ e.toNat)) (10 ^ p.2)
            else mkRat (signed p.1) (10 ^ p.2 * 10 ^ (-e).toNat))
    | _, _ => none
  | _ => none

/-- A property dictionary: the key-value source every resolver reads first. -/
abbrev PropsDict := List (String × PVal)

/-- `props.get(prop_name, None)`. -/
def lookupProp (props : PropsDict) (k : String) : Option PVal :=
  (props.find? (fun p => p.1 == k)).map (·.2)

/-- The process environment, made explicit: `os.getenv` reads it. -/
abbrev Env := List (String × String)

/-- `os.getenv(name)`: `None` when the variable is unset. -/
def getenv (env : Env) (k : String) : Option String :=
  (env.find? (fun p => p.1 == k)).map (·.2)

/-- Whether Python `s` is blank in the sense of `not s or not s.strip()`. -/
def isBlank (s : String) : Bool := pyStrip s == ""

/-- `env_var_name and env_var_name.strip()`: the environment tier runs only
for a present, non-blank variable name. -/
def envNameUsable : Option String → Bool
  | none => false
  | some n => !isBlank n

namespace Utils

/-- `utils.get_str_property`: explicit value (stringified, non-blank) over
environment variable (non-blank) over default; an explicit `None` fails the
`value is not None` guard and counts as absent. -/
def get_str_property (props : PropsDict) (prop_name : String)
    (env_var_name : Option String) (env : Env)
    (default_value : Option String) : Option String :=
  let envTier : Option String :=
    if envNameUsable env_var_name then
      match getenv env (env_var_name.getD "") with
      | some v => if !isBlank v then some v else default_value
      | none => default_value
    else default_value
  match lookupProp props prop_name with
  | some .pynone => envTier
  | some value =>
    let value_str := pyStr value
    if !isBlank value_str then some value_str else envTier
  | none => envTier

/-- `utils.get_int_property`: an explicit `int` is returned as is, an
explicit `None` fails the `value is not None` guard and counts as absent,
any other explicit value is stringified, stripped and parsed, and a failed
or blank parse falls through to the environment variable and then the
default. -/
def get_int_property (props : PropsDict) (prop_name : String)
    (env_var_name : Option String) (env : Env)
    (default_value : Option Int) : Option Int :=
  let envTier : Option Int :=
    if envNameUsable env_var_name then
      match getenv env (env_var_name.getD "") with
      | some v =>
        if !isBlank v then
          match pyParseInt v with
          | some n => some n
          | none => default_value
        else default_value
      | none => default_value
    else default_value
  match lookupProp props prop_name with
  | some .pynone => envTier
  | some value =>
    if value.isinstance_int then some value.toInt
    else
      let value_str := pyStrip (pyStr value)
      if value_str ≠ "" then
        match pyParseInt value_str with
        | some n => some n
        | none => envTier
      else envTier
  | none => envTier

/-- `utils.get_float_property`: an explicit `float` is returned as is, an
explicit `None` counts as absent, any other explicit value is stringified,
stripped and parsed as a float, and a failed or blank parse falls through
to the environment variable and then the default. -/
def get_float_property (props : PropsDict) (prop_name : String)
    (env_var_name : Option String) (env : Env)
    (default_value : Option ℚ) : Option ℚ :=
  let envTier : Option ℚ :=
    if envNameUsable env_var_name then
      match getenv env (env_var_name.getD "") with
      | some v =>
        if !isBlank v then
          match pyParseFloat v with
          | some q => some q
          | none => default_value
        else default_value
      | none => default_value
    else default_value
  match lookupProp props prop_name with
  | some .pynone => envTier
  | some value =>
    if value.isinstance_float then some value.toRat
    else
      let value_str := pyStrip (pyStr value)
      if value_str ≠ "" then
        match pyParseFloat value_str with
        | some q => some q
        | none => envTier
      else envTier
  | none => envTier

/-- The boolean literal set `{true, yes, 1, y, on}` / `{false, no, 0, n, off}`
lookup applied to an already stripped, lowercased string. -/
def boolLiteral (s : String) : Option Bool :=
  if s == "true" || s == "yes" || s == "1" || s == "y" || s == "on" then some true
  else if s == "false" || s == "no" || s == "0" || s == "n" || s == "off" then some false
  else none

/-- `utils.get_bool_property`: an explicit `bool` is returned as is, a string
is matched against the literal sets case-insensitively and trimmed, a numeric
value is coerced with `bool(value)`, anything else falls through to the
environment variable (literal sets only) and then the default. -/
def get_bool_property (props : PropsDict) (prop_name : String)
    (env_var_name : Option String) (env : Env)
    (default_value : Option Bool) : Option Bool :=
  let envTier : Option Bool :=
    if envNameUsable env_var_name then
      match getenv env (env_var_name.getD "") with
      | some v =>
        match boolLiteral (pyLowerStrip v) with
        | some b => some b
        | none => default_value
      | none => default_value
    else default_value
  match lookupProp props prop_name with
  | some value =>
    match value with
    | .pybool b => some b
    | .pystr s =>
      match boolLiteral (pyLowerStrip s) with
      | some b => some b
      | none => envTier
    | .pyint n => some (n ≠ 0)
    | .pyfloat q => some (q ≠ 0)
    | .pynone => envTier
  | none => envTier

end Utils

namespace Props

/-- `MCPServerProperties.get_str_property`: textually the same resolver as
`utils.get_str_property`. -/
def get_str_property (props : PropsDict) (prop_name : String)
    (env_var_name : Option String) (env : Env)
    (default_value : Option String) : Option String :=
  Utils.get_str_property props prop_name env_var_name env default_value

/-- `MCPServerProperties.get_int_property`.  Unlike the `utils` copy, the
non-`int` branch begins with `value = None`, so `value_str` is always
`str(None).strip() = "None"`, `int("None")` always fails, and every explicit
value that is not already an `int` falls through to the environment tier
(an explicit `None` skips the branch and falls through the same way). -/
def get_int_property (props : PropsDict) (prop_name : String)
    (env_var_name : Option String) (env : Env)
    (default_value : Option Int) : Option Int :=
  let envTier : Option Int :=
    if envNameUsable env_var_name then
      match getenv env (env_var_name.getD "") with
      | some v =>
        if !isBlank v then
          match pyParseInt v with
          | some n => some n
          | none => default_value
        else default_value
      | none => default_value
    else default_value
  match lookupProp props prop_name with
  | some value =>
    if value.isinstance_int then some value.toInt
    else
      -- `value = None` precedes the stringification in the source, so:
      let value_str := pyStrip (pyStr PVal.pynone)
      if value_str ≠ "" then
        match pyParseInt value_str with
        | some n => some n
        | none => envTier
      else envTier
  | none => envTier

/-- `MCPServerProperties.get_float_property`.  An explicit `int` or `float`
is coerced with `float(value)`; as in `get_int_property`, the string branch
reassigns `value = None` first, so every other explicit value falls through
to the environment tier. -/
def get_float_property (props : PropsDict) (prop_name : String)
    (env_var_name : Option String) (env : Env)
    (default_value : Option ℚ) : Option ℚ :=
  let envTier : Option ℚ :=
    if envNameUsable env_var_name then
      match getenv env (env_var_name.getD "") with
      | some v =>
        if !isBlank v then
          match pyParseFloat v with
          | some q => some q
          | none => default_value
        else default_value
      | none => default_value
    else default_value
  match lookupProp props prop_name with
  | some value =>
    if value.isinstance_int_or_float then some value.toRat
    else
      -- `value = None` precedes the stringification in the source, so:
      let value_str := pyStrip (pyStr PVal.pynone)
      if value_str ≠ "" then
        match pyParseFloat value_str with
        | some q => some q
        | none => envTier
      else envTier
  | none => envTier

/-- `MCPServerProperties.get_bool_property`: textually the same resolver as
`utils.get_bool_property`. -/
def get_bool_property (props : PropsDict) (prop_name : String)
    (env_var_name : Option String) (env : Env)
    (default_value : Option Bool) : Option Bool :=
  Utils.get_bool_property props prop_name env_var_name env default_value

end Props

/-- One knowledge-base entry as the typed configuration model holds it
(`properties/Dataset.py`), after key normalisation and pydantic's typed
resolution; the parameter-description strings, which never influence
control flow, are omitted.  Field defaults are the pydantic defaults. -/
structure Dataset where
  enabled : Bool := true
  dataset_id : Option String := none
  id_param_enabled : Bool := false
  search_tool_enabled : Bool := true
  search_tool_name : String := ""
  search_tool_description : Option String := none
  search_tool_result : String := "json"
  base_url : Option String := none
  api_key : Option String := none
  default_top_k : Int := 3
  default_weights : ℚ := mkRat 6 10
  default_score_threshold_enabled : Bool := false
  default_score_threshold : ℚ := mkRat 5 10
deriving DecidableEq

/-- Whether an optional string is Python-blank (`not s or not s.strip()`). -/
def optBlank : Option String → Bool
  | none => true
  | some s => isBlank s

/-- Python-dict insertion: replacing an existing key keeps its position,
a new key is appended (`self.datasets[dataset_id] = dataset`). -/
def dictSet (m : List (String × Dataset)) (k : String) (v : Dataset) :
    List (String × Dataset) :=
  if m.any (fun p => p.1 == k) then
    m.map (fun p => if p.1 == k then (k, v) else p)
  else m ++ [(k, v)]

/-- The server-wide configuration fields of `MCPServerProperties` that the
dispatch pipeline reads per call; defaults are the class defaults. -/
structure MCPServerProperties where
  default_base_url : Option String := none
  default_api_key : Option String := none
  timeout : ℚ := mkRat 60 1
  timeout_param_enabled : Bool := false
deriving DecidableEq

namespace MCPServerProperties

/-- The body of `MCPServerProperties._load_datasets` for one enabled entry
that already has its map key: the three search-tool checks each merely clear
`search_tool_enabled` in sequence — blank name, tool name already seen
(compared against the raw, unstripped configured name, while `seen` holds
stripped names), blank description — so the entry stays accepted exactly
when all three pass; the result format is normalised to `json` when
invalid; an accepted dataset gets its name and description stripped and its
stripped name appended to `seen_tool_names`, a rejected one gets them
blanked and `seen` is left unchanged. -/
def checkSearchTool (seen : List String) (d : Dataset) : Dataset × List String :=
  if d.search_tool_enabled then
    let ok := !(isBlank d.search_tool_name) && !(seen.contains d.search_tool_name)
      && !(optBlank d.search_tool_description)
    let result := if d.search_tool_result ≠ "json" && d.search_tool_result ≠ "simple"
      then "json" else d.search_tool_result
    if ok then
      ({ d with
          search_tool_result := result
          search_tool_name := pyStrip d.search_tool_name
          search_tool_description := some (pyStrip (d.search_tool_description.getD "")) },
        seen ++ [pyStrip d.search_tool_name])
    else
      ({ d with
          search_tool_enabled := false
          search_tool_result := result
          search_tool_name := ""
          search_tool_description := some "" },
        seen)
  else (d, seen)

/-- The loop of `MCPServerProperties._load_datasets` over the configured
entries, carrying the dataset map (a Python dict, insertion-ordered) and the
`seen_tool_names` accumulator.  A disabled entry, a blank static id and a
dataset whose search tool ends up disabled are each discarded and the loop
continues; in dynamic-id mode the map key is the synthetic
`"__dataset_{len(self.datasets)}__"` placeholder. -/
def loadDatasetsLoop : List Dataset → List (String × Dataset) → List String →
    List (String × Dataset)
  | [], datasets, _ => datasets
  | item :: rest, datasets, seen =>
    if !item.enabled then loadDatasetsLoop rest datasets seen
    else
      let idOpt : Option String :=
        if !item.id_param_enabled then
          match item.dataset_id with
          | none => none
          | some s => if isBlank s then none else some s
        else some ("__dataset_" ++ toString datasets.length ++ "__")
      match idOpt with
      | none => loadDatasetsLoop rest datasets seen
      | some dataset_id =>
        let (d, seen') := checkSearchTool seen item
        if !d.search_tool_enabled then loadDatasetsLoop rest datasets seen
        else loadDatasetsLoop rest (dictSet datasets dataset_id d) seen'

/-- `MCPServerProperties._load_datasets`, started on an empty map and an
empty `seen_tool_names`. -/
def _load_datasets (items : List Dataset) : List (String × Dataset) :=
  loadDatasetsLoop items [] []

/-- The parsed configuration document as far as the dataset registry is
concerned: the `datasets` list after key normalisation and typed resolution.
The server-wide, list-bases and get-base sections only assign fields and
never raise, so they cannot affect the outcome modelled here. -/
structure ConfigDoc where
  datasets : List Dataset
deriving DecidableEq

/-- The outcome of `MCPServerProperties.load` after the YAML parse: either
the loaded dataset map or a fatal `McpError` with its code. -/
inductive LoadResult where
  | ok (datasets : List (String × Dataset))
  | configError (code : Int)
deriving DecidableEq

/-- `MCPServerProperties.load`, from the parse result onward.  `none` models
`yaml.safe_load` returning `None` (an empty document): the source logs
"Properties file ... is empty." and returns early, so the
zero-datasets check below it never runs on that path.  A parsed document has
its datasets loaded and then `if not self.datasets:` raises
`McpError(ErrorData(code=404, ...))`. -/
def load (doc : Option ConfigDoc) : LoadResult :=
  match doc with
  | none => .ok []
  | some d =>
    let datasets := _load_datasets d.datasets
    if datasets.isEmpty then .configError 404 else .ok datasets

end MCPServerProperties

/-- `serve` (server.py) calls `properties.load` and, when it returns without
raising, proceeds unconditionally to build the tool registry and start the
transport: the process begins serving exactly when `load` does not raise. -/
def serveStarts (doc : Option MCPServerProperties.ConfigDoc) : Bool :=
  match MCPServerProperties.load doc with
  | .ok _ => true
  | .configError _ => false

/-- `RAGFlowError` (ragflow/RAGFlowError.py): the downstream client's error,
carrying an optional HTTP-like status code; messages are not modelled. -/
structure RAGFlowError where
  code : Option Int := none
deriving DecidableEq

/-- Modelled from the spec: the repository's `schema/exceptions.py` is not
among the source files, so the error classes raised by the dispatch pipeline
(`InvalidToolArgumentError`, `ToolAPIError`, `DataError` — the spec's
`InvalidArgument` / `UpstreamError` / `NoData`-`NotFound` taxonomy) are
embedded as bare tags with the code the raise sites pass; messages are not
modelled. -/
inductive ToolErr where
  | invalidToolArgument
  | toolAPIError (code : Option Int)
  | dataError (code : Int)
deriving DecidableEq

/-- One retrieved chunk, restricted to the two fields the pipeline reads
(`retrieve_chunks_types.Chunk.similarity` and `.content`, both optional). -/
structure Chunk where
  similarity : Option ℚ := none
  content : Option String := none
deriving DecidableEq

/-- `retrieve_chunks_types.Data`: the `chunks` list of a retrieval response. -/
structure RData where
  chunks : Option (List Chunk) := none
deriving DecidableEq

/-- The downstream HTTP exchange, made explicit: a 200 response with its
parsed inner `code` and `data`, a 404, another non-200 status, a client-side
timeout (`asyncio.TimeoutError`), or another network failure. -/
inductive HttpResp where
  | ok (code : Option Int) (data : Option RData)
  | notFound
  | httpError (status : Int)
  | timeout
  | netError
deriving DecidableEq

/-- `_ragflow_code_dict.get(code, 500)`: the well-known inner application
codes mapped to HTTP-like codes, everything else (including a missing or
non-integer `code`) to 500. -/
def ragflowCodeDict (code : Option Int) : Int :=
  match code with
  | some 0 => 200
  | some 100 => 404
  | some 102 => 404
  | some 109 => 401
  | _ => 500

/-- The recursion `bit_length n = bit_length (n / 2) + 1` (for `n ≥ 1`) with
explicit fuel, so that it is structural and evaluates inside the kernel; the
fuel `n` itself always suffices since `n / 2 < n`. -/
def bitLenAux : Nat → Nat → Nat
  | _, 0 => 0
  | 0, _ + 1 => 0
  | fuel + 1, n + 1 => bitLenAux fuel ((n + 1) / 2) + 1

/-- Python `int.bit_length()` for a non-negative value:
`⌊log₂ n⌋ + 1` for `n ≥ 1` and `0` for `n = 0`. -/
def bit_length (n : Nat) : Nat := bitLenAux n n

/-- The retrieval request body as `retrieve_chunks` builds it: the `top_k`
field is the vector-side probe count, `page_size` the caller's `top_k`. -/
structure RetrievePayload where
  question : String
  top_k : Int
  dataset_ids : List String
  page : Int
  page_size : Int
  similarity_threshold : ℚ
  vector_similarity_weight : ℚ
  keyword : Bool
  highlight : Bool
deriving DecidableEq

/-- How one `retrieve_chunks` call ends: a parsed success body, a
`RAGFlowError`, or an uncaught `TypeError` (comparing `None` with `0` in the
threshold check, which sits outside the `try` block). -/
inductive RetrieveOutcome where
  | ok (data : Option RData)
  | fail (e : RAGFlowError)
  | typeError
deriving DecidableEq

/-- One `retrieve_chunks` call with its observable effects: whether an HTTP
request was sent, the request body if one was built, and the outcome. -/
structure RetrieveTrace where
  httpSent : Bool
  payload : Option RetrievePayload
  outcome : RetrieveOutcome
deriving DecidableEq

/-- Whether a Python `str | None` is falsy (`not s`): `None` or `""`. -/
def optFalsy : Option String → Bool
  | none => true
  | some s => s == ""

namespace RAGFlowKnowledgeAPI

/-- `retrieve_chunks` after its argument validation: the default probe count
`max(2, 1 << ((top_k - 1).bit_length()))` when none was supplied, base-URL
and API-key defaulting with their 400/401 failures, the request payload, and
the response/error mapping of the HTTP exchange. -/
def retrieveSend (default_base_url default_api_key : String)
    (did query : String) (base_url api_key : Option String)
    (top_k : Int) (vector_chunk_size : Option Int)
    (weights similarity_threshold : ℚ) (resp : HttpResp) : RetrieveTrace :=
  let vcs : Int :=
    match vector_chunk_size with
    | some v => v
    | none => ((max 2 (2 ^ bit_length (top_k - 1).toNat) : Nat) : Int)
  let bu := if optBlank base_url then default_base_url else base_url.getD ""
  if isBlank bu then ⟨false, none, .fail ⟨some 400⟩⟩
  else
    let ak := if optBlank api_key then default_api_key else api_key.getD ""
    if isBlank ak then ⟨false, none, .fail ⟨some 401⟩⟩
    else
      let payload : RetrievePayload := {
        question := query
        top_k := vcs
        dataset_ids := [did]
        page := 1
        page_size := top_k
        similarity_threshold := similarity_threshold
        vector_similarity_weight := weights
        keyword := true
        highlight := false }
      match resp with
      | .ok code data =>
        if code == some 0 then ⟨true, some payload, .ok data⟩
        else ⟨true, some payload, .fail ⟨some (ragflowCodeDict code)⟩⟩
      | .notFound => ⟨true, some payload, .fail ⟨some 404⟩⟩
      | .httpError s => ⟨true, some payload, .fail ⟨some s⟩⟩
      | .timeout => ⟨true, some payload, .fail ⟨some 408⟩⟩
      | .netError => ⟨true, some payload, .fail ⟨some 500⟩⟩

/-- `RAGFlowKnowledgeAPI.retrieve_chunks`: the client-side validations in
source order — blank query (400), blank dataset id (400), `top_k` outside
`[1, 500]` (400), and, when thresholding is enabled, a threshold outside
`[0, 1]` (400; comparing a `None` threshold raises an uncaught `TypeError`
there) — all before any request is built; then the send.  When thresholding
is disabled the body carries the near-zero sentinel `1e-6`. -/
def retrieve_chunks (default_base_url default_api_key : String)
    (dataset_id : Option String) (query : String)
    (base_url api_key : Option String)
    (top_k : Int) (vector_chunk_size : Option Int)
    (weights : ℚ) (score_threshold_enabled : Bool) (score_threshold : Option ℚ)
    (resp : HttpResp) : RetrieveTrace :=
  if isBlank query then ⟨false, none, .fail ⟨some 400⟩⟩
  else if optBlank dataset_id then ⟨false, none, .fail ⟨some 400⟩⟩
  else
    let did := dataset_id.getD ""
    if top_k < 1 || top_k > 500 then ⟨false, none, .fail ⟨some 400⟩⟩
    else
      match score_threshold_enabled, score_threshold with
      | true, none => ⟨false, none, .typeError⟩
      | true, some q =>
        if q < 0 || q > 1 then ⟨false, none, .fail ⟨some 400⟩⟩
        else retrieveSend default_base_url default_api_key did query base_url api_key
          top_k vector_chunk_size weights q resp
      | false, _ =>
        retrieveSend default_base_url default_api_key did query base_url api_key
          top_k vector_chunk_size weights (mkRat 1 1000000) resp

end RAGFlowKnowledgeAPI

/-- `schema.search_knowledge_types.Knowledge`: one result record, built only
from chunks whose similarity and content are both present. -/
structure Knowledge where
  score : ℚ
  content : String
deriving DecidableEq

/-- `schema.search_knowledge_types.SearchKnowledgeResult`. -/
structure SearchKnowledgeResult where
  knowledge_list : List Knowledge
  knowledge_base_id : Option String
deriving DecidableEq

/-- Insertion step of the stable descending sort: `x`, coming earlier in the
input, is placed before the first element whose score is `≤ x.score`, so it
precedes every equal-scored later element and follows every strictly
higher-scored one. -/
def insertDesc (x : Knowledge) : List Knowledge → List Knowledge
  | [] => [x]
  | y :: ys => if y.score ≤ x.score then x :: y :: ys else y :: insertDesc x ys

/-- `knowledge_list.sort(key=lambda x: x.score, reverse=True)`: CPython's
list sort is stable, and with `reverse=True` it orders by score descending
while equal-scored elements keep their original relative order — exactly the
insertion sort above, which inserts each element (taken left to right, the
leftmost last) before all equal-or-lower-scored ones. -/
def sortByScoreDesc : List Knowledge → List Knowledge
  | [] => []
  | x :: xs => insertDesc x (sortByScoreDesc xs)

/-- The conversion loop of `search_knowledge`: a chunk lacking a similarity
score or content is skipped with a warning; every other chunk becomes a
`Knowledge` record, input order preserved. -/
def drop_incomplete (chunks : List Chunk) : List Knowledge :=
  chunks.filterMap (fun c =>
    match c.similarity, c.content with
    | some s, some t => some ⟨s, t⟩
    | _, _ => none)

/-- Python `l[:k]` on a list: the first `k` elements for `k ≥ 0`, all but the
last `-k` for `k < 0`. -/
def pySliceTo (l : List Knowledge) (k : Int) : List Knowledge :=
  if 0 ≤ k then l.take k.toNat else l.take (l.length - (-k).toNat)

/-- The defensive trim of `search_knowledge`: only when the list is longer
than `top_k` is it cut to `knowledge_list[:top_k]`. -/
def trim_top_k (l : List Knowledge) (top_k : Int) : List Knowledge :=
  if (l.length : Int) > top_k then pySliceTo l top_k else l

/-- The full result shaping of `search_knowledge`: drop incomplete chunks,
sort by score descending (stable), trim to `top_k`. -/
def shape_knowledge (chunks : List Chunk) (top_k : Int) : List Knowledge :=
  trim_top_k (sortByScoreDesc (drop_incomplete chunks)) top_k

/-- A tool call's argument map. -/
abbrev Args := List (String × PVal)

/-- `args.get(k, default)`. -/
def argsGet (args : Args) (k : String) (default : PVal) : PVal :=
  match (args.find? (fun p => p.1 == k)).map (·.2) with
  | some v => v
  | none => default

/-- The string payload of a validated string argument. -/
def PVal.asStr : PVal → String
  | .pystr s => s
  | _ => ""

/-- A validated string-or-`None` argument as an optional string. -/
def PVal.asOptStr : PVal → Option String
  | .pystr s => some s
  | _ => none

/-- A validated boolean argument. -/
def PVal.asBool : PVal → Bool
  | .pybool b => b
  | _ => false

/-- A validated float-or-`None` argument as an optional rational. -/
def PVal.asOptRat : PVal → Option ℚ
  | .pyfloat q => some q
  | _ => none

/-- Decidable equality of `Except` values, for evaluating the validation
phase on concrete inputs. -/
instance {ε α : Type} [DecidableEq ε] [DecidableEq α] : DecidableEq (Except ε α) :=
  fun x y =>
    match x, y with
    | .ok a, .ok b =>
      if h : a = b then .isTrue (congrArg Except.ok h)
      else .isFalse (fun hc => h (Except.ok.inj hc))
    | .error a, .error b =>
      if h : a = b then .isTrue (congrArg Except.error h)
      else .isFalse (fun hc => h (Except.error.inj hc))
    | .ok _, .error _ => .isFalse (fun hc => Except.noConfusion hc)
    | .error _, .ok _ => .isFalse (fun hc => Except.noConfusion hc)

/-- The per-call parameters of a search invocation once validation has
passed: call arguments applied over dataset defaults over server defaults. -/
structure ResolvedSearch where
  query : String
  dataset_id : Option String
  top_k : Int
  score_threshold_enabled : Bool
  score_threshold : Option ℚ
  timeout : Option ℚ
  base_url : Option String
  api_key : Option String
deriving DecidableEq

/-- The validation and parameter-resolution phase of
`service.search_knowledge`, in source order: `query` non-blank string;
`knowledge_base_id` non-blank string when `id_param_enabled`; `top_k` truthy
`int` (a Python `bool` is an `int`) with value `≥ 1`; `score_threshold_enabled`
a `bool`; `score_threshold`, when not `None`, a `float` (strictly — an `int`
is rejected) with value `≥ 0`; and, when the server's timeout parameter is
enabled, `timeout`, when not `None`, an `int ≥ 1` (the `args.get` default for
it is the *float* `properties.timeout`).  Afterwards the dataset's base URL
and API key are used only when both are truthy, else both server defaults. -/
def search_validate (props : MCPServerProperties) (dataset : Dataset)
    (args : Args) : Except ToolErr ResolvedSearch :=
  let query := argsGet args "query" (.pystr "")
  let dataset_idv : PVal :=
    if dataset.id_param_enabled then argsGet args "knowledge_base_id" .pynone
    else
      match dataset.dataset_id with
      | some s => .pystr s
      | none => .pynone
  let top_kv := argsGet args "top_k" (.pyint dataset.default_top_k)
  let stev := argsGet args "score_threshold_enabled"
    (.pybool dataset.default_score_threshold_enabled)
  let stv := argsGet args "score_threshold" (.pyfloat dataset.default_score_threshold)
  if !query.truthy || !query.isinstance_str || isBlank (pyStr query) then
    .error .invalidToolArgument
  else if dataset.id_param_enabled &&
      (!dataset_idv.truthy || !dataset_idv.isinstance_str || isBlank (pyStr dataset_idv)) then
    .error .invalidToolArgument
  else if !top_kv.truthy || !top_kv.isinstance_int || top_kv.toInt < 1 then
    .error .invalidToolArgument
  else if stev == .pynone || !stev.isinstance_bool then
    .error .invalidToolArgument
  else if stv ≠ .pynone && (!stv.isinstance_float || stv.toRat < 0) then
    .error .invalidToolArgument
  else
    let tv := argsGet args "timeout" (.pyfloat props.timeout)
    if props.timeout_param_enabled && (tv ≠ .pynone && (!tv.isinstance_int || tv.toInt < 1)) then
      .error .invalidToolArgument
    else
      let timeout : Option ℚ :=
        if props.timeout_param_enabled then
          match tv with
          | .pynone => none
          | v => some (mkRat v.toInt 1)
        else some props.timeout
      let (base_url, api_key) :=
        if optFalsy dataset.base_url || optFalsy dataset.api_key then
          (props.default_base_url, props.default_api_key)
        else (dataset.base_url, dataset.api_key)
      .ok {
        query := query.asStr
        dataset_id := dataset_idv.asOptStr
        top_k := top_kv.toInt
        score_threshold_enabled := stev.asBool
        score_threshold := stv.asOptRat
        timeout := timeout
        base_url := base_url
        api_key := api_key }

/-- How one `search_knowledge` call ends: a shaped result, a raised tool
error, or an exception that is not a `ToolError` escaping the handler. -/
inductive SearchOutcome where
  | ok (r : SearchKnowledgeResult)
  | err (e : ToolErr)
  | uncaught
deriving DecidableEq

/-- One `search_knowledge` call with its observable effects: how many times
the downstream client was invoked, whether an HTTP request was sent, the
request body if one was built, and the outcome. -/
structure SearchTrace where
  apiCalls : Nat
  httpSent : Bool
  payload : Option RetrievePayload
  outcome : SearchOutcome
deriving DecidableEq

/-- `service.search_knowledge`: validate and resolve, invoke
`retrieve_chunks` once — without a `weights` argument, so the client default
`0.6` applies and neither the call's `semantic_weights` argument nor the
dataset's `default_weights` is ever read — wrap a `RAGFlowError` as
`ToolAPIError` with the same code, raise `DataError(404)` when no chunks (or
no complete chunks) came back, and otherwise sort and trim the survivors. -/
def search_knowledge (props : MCPServerProperties)
    (api_default_base_url api_default_api_key : String)
    (dataset : Dataset) (args : Args) (resp : HttpResp) : SearchTrace :=
  match search_validate props dataset args with
  | .error e => ⟨0, false, none, .err e⟩
  | .ok r =>
    let t := RAGFlowKnowledgeAPI.retrieve_chunks api_default_base_url api_default_api_key
      r.dataset_id r.query r.base_url r.api_key r.top_k none
      (mkRat 6 10) r.score_threshold_enabled r.score_threshold resp
    match t.outcome with
    | .fail e => ⟨1, t.httpSent, t.payload, .err (.toolAPIError e.code)⟩
    | .typeError => ⟨1, t.httpSent, t.payload, .uncaught⟩
    | .ok data =>
      let rawChunks :=
        match data with
        | none => []
        | some d => d.chunks.getD []
      if rawChunks.isEmpty then ⟨1, t.httpSent, t.payload, .err (.dataError 404)⟩
      else
        let knowledge_list := drop_incomplete rawChunks
        if knowledge_list.isEmpty then ⟨1, t.httpSent, t.payload, .err (.dataError 404)⟩
        else
          let final := trim_top_k (sortByScoreDesc knowledge_list) r.top_k
          ⟨1, t.httpSent, t.payload, .ok ⟨final, r.dataset_id⟩⟩

/-- Spec-side: a usable query or id argument — a Python `str` that is
non-blank after stripping. -/
def IsNonBlankStr (v : PVal) : Prop := ∃ s, v = .pystr s ∧ pyStrip s ≠ ""

/-- Spec-side: a positive integer in Python's sense — an `int ≥ 1`, or the
`bool` `True` (a subclass of `int` equal to 1). -/
def IsPositiveIntLike (v : PVal) : Prop :=
  (∃ n : Int, v = .pyint n ∧ 1 ≤ n) ∨ v = .pybool true

/-- Spec-side: a Python `bool`. -/
def IsPyBool (v : PVal) : Prop := ∃ b, v = .pybool b

/-- Spec-side: a non-negative Python `float` (strictly a `float`: an `int`
does not qualify). -/
def IsNonNegFloat (v : PVal) : Prop := ∃ q : ℚ, v = .pyfloat q ∧ 0 ≤ q

/-- Spec-side: an acceptable timeout argument — `None` or a positive int. -/
def IsPositiveIntLikeOrNone (v : PVal) : Prop := v = .pynone ∨ IsPositiveIntLike v

/-- The search-tool names of a loaded dataset map. -/
def toolNames (m : List (String × Dataset)) : List String :=
  m.map (fun p => p.2.search_tool_name)

/-- A concrete static-id dataset used by the evaluations below: dataset id
`"d"`, its own base URL and API key, and a configured default semantic
weight of `0.2` (so it differs from the client default `0.6`). -/
def demoDataset : Dataset := {
  dataset_id := some "d"
  search_tool_name := "t"
  search_tool_description := some "demo"
  base_url := some "u"
  api_key := some "k"
  default_weights := mkRat 1 5 }

/-- A concrete successful downstream response: HTTP 200, inner code 0, one
complete chunk. -/
def demoResp : HttpResp := .ok (some 0) (some ⟨some [⟨some (mkRat 1 1), some "c"⟩]⟩)

end Ragflow

namespace Ragflow

open MCPServerProperties

/-- C1: the claim says the outbound retrieval body carries the call's
`semantic_weights` argument when supplied, else the dataset's configured
default weight.  The code never reads either: `search_knowledge` calls
`retrieve_chunks` without a `weights` argument, so the body's
`vector_similarity_weight` is always the client default `0.6` — here despite
a call argument `semantic_weights = 0.9` and a dataset default of `0.2`, and
also with no argument at all over the same dataset default. -/
theorem C1_semantic_weight_ignored :
    ((search_knowledge {} "bu" "bk" demoDataset
        [("query", .pystr "q"), ("semantic_weights", .pyfloat (mkRat 9 10))]
        demoResp).payload.map (fun p => p.vector_similarity_weight)) = some (mkRat 3 5)
    ∧ ((search_knowledge {} "bu" "bk" demoDataset [("query", .pystr "q")]
        demoResp).payload.map (fun p => p.vector_similarity_weight)) = some (mkRat 3 5)
    ∧ mkRat 3 5 ≠ mkRat 9 10 ∧ mkRat 3 5 ≠ mkRat 1 5
    ∧ demoDataset.default_weights = mkRat 1 5 := by
  refine ⟨by decide, by decide, by decide, by decide, by decide⟩

/-- C2: the claim says an empty configuration document must end startup in a
`ConfigError`-class failure on the at-least-one-dataset invariant.  The code
instead returns early from `load` when the parse result is `None`, skipping
the zero-datasets check, so `serve` proceeds and the process starts serving
with zero datasets; the invariant does fire for a parsed document whose
dataset list loads empty. -/
theorem C2_empty_document_bypasses_invariant :
    MCPServerProperties.load none = .ok []
    ∧ serveStarts none = true
    ∧ MCPServerProperties.load (some ⟨[]⟩) = .configError 404
    ∧ serveStarts (some ⟨[]⟩) = false := by
  refine ⟨by decide, by decide, by decide, by decide⟩

/-- C3: the claim says the integer and float resolvers coerce an explicit
scalar of a different type (e.g. the string "42") and return it ahead of the
environment variable and the default.  In `MCPServerProperties` the coercion
branch reassigns `value = None` before stringifying, so `int("None")` /
`float("None")` always fails and the explicit string is discarded in favour
of the default; the identically documented `utils` resolvers coerce as
claimed. -/
theorem C3_props_resolvers_discard_explicit_strings :
    Props.get_int_property [("k", .pystr "42")] "k" none [] (some 7) = some 7
    ∧ Utils.get_int_property [("k", .pystr "42")] "k" none [] (some 7) = some 42
    ∧ Props.get_float_property [("k", .pystr "1.5")] "k" none [] (some (mkRat 2 1))
        = some (mkRat 2 1)
    ∧ Utils.get_float_property [("k", .pystr "1.5")] "k" none [] (some (mkRat 2 1))
        = some (mkRat 3 2) := by
  refine ⟨by decide, by decide, by decide, by decide⟩

/-- Inserting an element is a permutation of consing it. -/
theorem insertDesc_perm (x : Knowledge) (l : List Knowledge) :
    (insertDesc x l).Perm (x :: l) := by
  induction l with
  | nil => exact .refl _
  | cons y ys ih =>
    unfold insertDesc
    split
    · exact .refl _
    · exact (ih.cons y).trans (List.Perm.swap x y ys)

/-- The stable descending sort permutes its input. -/
theorem sortByScoreDesc_perm (l : List Knowledge) :
    (sortByScoreDesc l).Perm l := by
  induction l with
  | nil => exact .refl _
  | cons x xs ih =>
    exact (insertDesc_perm x (sortByScoreDesc xs)).trans (ih.cons x)

/-- Membership in an insertion. -/
theorem mem_insertDesc {a x : Knowledge} {l : List Knowledge} :
    a ∈ insertDesc x l ↔ a = x ∨ a ∈ l := by
  rw [(insertDesc_perm x l).mem_iff]
  simp

/-- Insertion preserves descending sortedness. -/
theorem insertDesc_pairwise (x : Knowledge) {l : List Knowledge}
    (h : l.Pairwise (fun a b => b.score ≤ a.score)) :
    (insertDesc x l).Pairwise (fun a b => b.score ≤ a.score) := by
  induction l with
  | nil => simp [insertDesc]
  | cons y ys ih =>
    rcases List.pairwise_cons.mp h with ⟨hy, hys⟩
    unfold insertDesc
    by_cases hle : y.score ≤ x.score
    · simp only [if_pos hle]
      refine List.pairwise_cons.mpr ⟨?_, h⟩
      intro b hb
      rcases List.mem_cons.mp hb with rfl | hb
      · exact hle
      · exact (hy b hb).trans hle
    · simp only [if_neg hle]
      refine List.pairwise_cons.mpr ⟨?_, ih hys⟩
      intro b hb
      rcases mem_insertDesc.mp hb with rfl | hb
      · exact le_of_lt (lt_of_not_le hle)
      · exact hy b hb

/-- The stable descending sort is sorted: scores never increase. -/
theorem sortByScoreDesc_sorted (l : List Knowledge) :
    (sortByScoreDesc l).Pairwise (fun a b => b.score ≤ a.score) := by
  induction l with
  | nil => simp [sortByScoreDesc]
  | cons x xs ih => exact insertDesc_pairwise x ih

/-- Stability of the insertion step, expressed per score class: the elements
of one score keep their relative order, and an inserted element of that score
lands in front of the (strictly smaller-scored) elements it skipped. -/
theorem filter_insertDesc (x : Knowledge) (s : ℚ) (l : List Knowledge) :
    (insertDesc x l).filter (fun y => y.score = s)
      = if x.score = s then x :: l.filter (fun y => y.score = s)
        else l.filter (fun y => y.score = s) := by
  induction l with
  | nil => by_cases hx : x.score = s <;> simp [insertDesc, hx]
  | cons y ys ih =>
    unfold insertDesc
    by_cases hle : y.score ≤ x.score
    · rw [if_pos hle]
      by_cases hx : x.score = s <;> by_cases hy : y.score = s <;>
        simp [hx, hy, List.filter]
    · rw [if_neg hle]
      by_cases hx : x.score = s
      · have hy : ¬(y.score = s) := by
          intro hc
          exact hle (by rw [hc, ← hx])
        simp [hx, hy, List.filter, ih]
      · by_cases hy : y.score = s <;> simp [hx, hy, List.filter, ih]

/-- Stability of the sort: within every score class, the sorted list keeps
the input's relative order (so equal-scored chunks stay in download order). -/
theorem filter_sortByScoreDesc (s : ℚ) (l : List Knowledge) :
    (sortByScoreDesc l).filter (fun y => y.score = s)
      = l.filter (fun y => y.score = s) := by
  induction l with
  | nil => rfl
  | cons x xs ih =>
    unfold sortByScoreDesc
    rw [filter_insertDesc]
    by_cases hx : x.score = s <;> simp [hx, List.filter, ih]

/-- For a non-negative `top_k` the defensive trim is plain truncation. -/
theorem trim_top_k_eq_take (l : List Knowledge) (k : Int) (hk : 0 ≤ k) :
    trim_top_k l k = l.take k.toNat := by
  unfold trim_top_k pySliceTo
  split
  · simp [hk]
  · next h =>
    have hlen : l.length ≤ k.toNat := by omega
    exact (List.take_of_length_le hlen).symm

/-- C4: the chunks surviving the drop of entries lacking a similarity score
or content are sorted by score descending — stably, so equal scores keep
download order, stated per score class — and truncated to the first `top_k`
entries; on the spec's concrete example with `top_k = 2` the contents come
out as `["b", "a"]`. -/
theorem C4_sorted_stable_truncated (chunks : List Chunk) (k : Int) (hk : 1 ≤ k) :
    (shape_knowledge chunks k).Pairwise (fun a b => b.score ≤ a.score)
    ∧ shape_knowledge chunks k = (sortByScoreDesc (drop_incomplete chunks)).take k.toNat
    ∧ (sortByScoreDesc (drop_incomplete chunks)).Perm (drop_incomplete chunks)
    ∧ (∀ s : ℚ, (sortByScoreDesc (drop_incomplete chunks)).filter (fun y => y.score = s)
        = (drop_incomplete chunks).filter (fun y => y.score = s))
    ∧ (shape_knowledge [⟨some (mkRat 9 10), some "a"⟩, ⟨some (mkRat 19 20), some "b"⟩,
        ⟨some (mkRat 2 5), some "c"⟩] 2).map (fun x => x.content) = ["b", "a"] := by
  have hk0 : (0 : Int) ≤ k := le_trans (by norm_num) hk
  have htake : shape_knowledge chunks k
      = (sortByScoreDesc (drop_incomplete chunks)).take k.toNat :=
    trim_top_k_eq_take _ k hk0
  refine ⟨?_, htake, sortByScoreDesc_perm _, fun s => filter_sortByScoreDesc s _, by decide⟩
  rw [htake]
  exact (sortByScoreDesc_sorted _).sublist (List.take_sublist _ _)

/-- C4 witness: the theorem applied to the spec's example chunks at
`top_k = 2`. -/
theorem C4_witness :
    (shape_knowledge [⟨some (mkRat 9 10), some "a"⟩, ⟨some (mkRat 19 20), some "b"⟩,
      ⟨some (mkRat 2 5), some "c"⟩] 2).map (fun x => x.content) = ["b", "a"] :=
  (C4_sorted_stable_truncated [] 2 (by norm_num)).2.2.2.2

/-- An element of a dict insertion is an old entry or the inserted pair. -/
theorem mem_dictSet {m : List (String × Dataset)} {k : String} {v : Dataset}
    {p : String × Dataset} (hp : p ∈ dictSet m k v) : p ∈ m ∨ p = (k, v) := by
  unfold dictSet at hp
  split at hp
  · rcases List.mem_map.mp hp with ⟨q, hq, rfl⟩
    by_cases hqk : q.1 == k
    · right
      rw [if_pos hqk]
    · left
      rw [if_neg hqk]
      exact hq
  · rcases List.mem_append.mp hp with h | h
    · exact Or.inl h
    · right
      simpa using h

/-- Replacing the entry at a key does not change the key list. -/
theorem keys_replace (m : List (String × Dataset)) (k : String) (v : Dataset) :
    (m.map (fun p => if p.1 == k then (k, v) else p)).map Prod.fst
      = m.map Prod.fst := by
  rw [List.map_map]
  apply List.map_congr_left
  intro q _
  simp only [Function.comp_apply]
  by_cases h : q.1 == k
  · rw [if_pos h]
    exact (eq_of_beq h).symm
  · rw [if_neg h]

/-- The tool names after replacing the entry at a key. -/
theorem toolNames_replace (m : List (String × Dataset)) (k : String) (v : Dataset) :
    toolNames (m.map (fun p => if p.1 == k then (k, v) else p))
      = m.map (fun p => if p.1 == k then v.search_tool_name else p.2.search_tool_name) := by
  unfold toolNames
  rw [List.map_map]
  apply List.map_congr_left
  intro q _
  simp only [Function.comp_apply]
  by_cases h : q.1 == k
  · rw [if_pos h, if_pos h]
  · rw [if_neg h, if_neg h]

/-- Replacing the entry at a key by a dataset with a fresh tool name keeps
the tool names duplicate-free, provided the keys are duplicate-free. -/
theorem replace_names_nodup (k : String) (v : Dataset) :
    ∀ m : List (String × Dataset), (m.map Prod.fst).Nodup → (toolNames m).Nodup →
    v.search_tool_name ∉ toolNames m →
    (m.map (fun p => if p.1 == k then v.search_tool_name else p.2.search_tool_name)).Nodup := by
  intro m
  induction m with
  | nil => simp
  | cons p rest ih =>
    intro hkeys hnames hv
    simp only [toolNames, List.map_cons, List.nodup_cons, List.mem_cons] at hkeys hnames hv ⊢
    push_neg at hv
    obtain ⟨hpk, hkeys'⟩ := hkeys
    obtain ⟨hpn, hnames'⟩ := hnames
    obtain ⟨hv1, hv2⟩ := hv
    refine ⟨?_, ih hkeys' hnames' hv2⟩
    by_cases hpk1 : p.1 == k
    · rw [if_pos hpk1]
      intro hc
      rcases List.mem_map.mp hc with ⟨q, hq, hqe⟩
      by_cases hqk : q.1 == k
      · have hmem : q.1 ∈ rest.map Prod.fst := List.mem_map_of_mem Prod.fst hq
        rw [eq_of_beq hqk, ← eq_of_beq hpk1] at hmem
        exact hpk hmem
      · rw [if_neg hqk] at hqe
        exact hv2 (hqe ▸ List.mem_map_of_mem (fun r => r.2.search_tool_name) hq)
    · rw [if_neg hpk1]
      intro hc
      rcases List.mem_map.mp hc with ⟨q, hq, hqe⟩
      by_cases hqk : q.1 == k
      · rw [if_pos hqk] at hqe
        exact hv1 hqe
      · rw [if_neg hqk] at hqe
        exact hpn (hqe ▸ List.mem_map_of_mem (fun r => r.2.search_tool_name) hq)

/-- A dict insertion keeps the keys duplicate-free. -/
theorem dictSet_keys_nodup {m : List (String × Dataset)} {k : String} {v : Dataset}
    (hkeys : (m.map Prod.fst).Nodup) : ((dictSet m k v).map Prod.fst).Nodup := by
  unfold dictSet
  split
  · rw [keys_replace]
    exact hkeys
  · next hany =>
    rw [List.map_append]
    refine List.Nodup.append hkeys (List.nodup_singleton k) ?_
    intro x hx hk
    rcases List.mem_map.mp hx with ⟨q, hq, rfl⟩
    simp only [List.map_cons, List.map_nil, List.mem_singleton] at hk
    subst hk
    exact hany (List.any_eq_true.mpr ⟨q, hq, by simp⟩)

/-- What acceptance means: when the search-tool checks leave the dataset
enabled, its tool name comes out stripped, the stripped name is appended to
`seen_tool_names`, and the raw configured name was not among the names
already seen. -/
theorem checkSearchTool_accepted {seen : List String} {item : Dataset}
    (h : (checkSearchTool seen item).1.search_tool_enabled = true) :
    (checkSearchTool seen item).1.search_tool_name = pyStrip item.search_tool_name
    ∧ (checkSearchTool seen item).2 = seen ++ [pyStrip item.search_tool_name]
    ∧ item.search_tool_name ∉ seen := by
  unfold checkSearchTool at h ⊢
  by_cases h0 : item.search_tool_enabled
  · simp only [h0, if_true] at h ⊢
    by_cases c1 : isBlank item.search_tool_name <;>
      by_cases c2 : seen.contains item.search_tool_name <;>
        by_cases c3 : optBlank item.search_tool_description <;>
          by_cases c4 : item.search_tool_result = "json" ∨ item.search_tool_result = "simple" <;>
            simp_all
  · simp_all

/-- Inserting a dataset whose tool name is fresh keeps the tool-name list
duplicate-free (when the key exists, the replaced entry is unique because
the keys are duplicate-free). -/
theorem dictSet_toolNames_nodup {m : List (String × Dataset)} {k : String} {v : Dataset}
    (hkeys : (m.map Prod.fst).Nodup) (hnames : (toolNames m).Nodup)
    (hv : v.search_tool_name ∉ toolNames m) :
    (toolNames (dictSet m k v)).Nodup := by
  unfold dictSet
  split
  · rw [toolNames_replace]
    exact replace_names_nodup k v m hkeys hnames hv
  · unfold toolNames at hnames hv ⊢
    rw [List.map_append]
    refine List.Nodup.append hnames (List.nodup_singleton _) ?_
    intro x hx hk
    simp only [List.map_cons, List.map_nil, List.mem_singleton] at hk
    subst hk
    exact hv hx

/-- The loader loop keeps the loaded map's tool names duplicate-free, given
that every remaining configured name is already whitespace-free, the map's
keys and tool names are duplicate-free so far, and every loaded tool name is
among the seen names. -/
theorem loadDatasetsLoop_toolNames_nodup :
    ∀ (items : List Dataset) (datasets : List (String × Dataset)) (seen : List String),
    (∀ it ∈ items, pyStrip it.search_tool_name = it.search_tool_name) →
    ((datasets.map Prod.fst).Nodup) →
    ((toolNames datasets).Nodup) →
    (∀ p ∈ datasets, p.2.search_tool_name ∈ seen) →
    (toolNames (loadDatasetsLoop items datasets seen)).Nodup := by
  intro items
  induction items with
  | nil =>
    intro datasets seen _ _ hnames _
    exact hnames
  | cons item rest ih =>
    intro datasets seen hitems hkeys hnames hseen
    have hitem : pyStrip item.search_tool_name = item.search_tool_name :=
      hitems item (List.mem_cons_self item rest)
    have hrest : ∀ it ∈ rest, pyStrip it.search_tool_name = it.search_tool_name :=
      fun it hit => hitems it (List.mem_cons_of_mem item hit)
    unfold loadDatasetsLoop
    cases he : item.enabled
    · simpa using ih datasets seen hrest hkeys hnames hseen
    · simp only [Bool.not_true, Bool.false_eq_true, if_false]
      cases hid : (if !item.id_param_enabled then
          match item.dataset_id with
          | none => none
          | some s => if isBlank s then none else some s
        else some ("__dataset_" ++ toString datasets.length ++ "__")) with
      | none => exact ih datasets seen hrest hkeys hnames hseen
      | some dataset_id =>
        cases hck : checkSearchTool seen item with
        | mk d seen' =>
          cases hen : d.search_tool_enabled
          · simpa using ih datasets seen hrest hkeys hnames hseen
          · have hacc := @checkSearchTool_accepted seen item (by rw [hck]; exact hen)
            rw [hck] at hacc
            obtain ⟨hname0, hseen0, hnotin⟩ := hacc
            have hname : d.search_tool_name = pyStrip item.search_tool_name := hname0
            have hseen2 : seen' = seen ++ [pyStrip item.search_tool_name] := hseen0
            simp only [Bool.not_true, Bool.false_eq_true, if_false]
            have hfresh : d.search_tool_name ∉ toolNames datasets := by
              intro hc
              apply hnotin
              rw [← hitem, ← hname]
              rcases List.mem_map.mp hc with ⟨p, hp, hpe⟩
              exact hpe ▸ hseen p hp
            refine ih (dictSet datasets dataset_id d) seen' hrest
              (dictSet_keys_nodup hkeys) (dictSet_toolNames_nodup hkeys hnames hfresh) ?_
            intro p hp
            rcases mem_dictSet hp with hold | hnew
            · rw [hseen2]
              exact List.mem_append_left _ (hseen p hold)
            · rw [hnew, hseen2]
              simp [hname]

/-- C5 counterexample: two enabled datasets both configured with the search
tool name `" tool "` (identical strings, with surrounding whitespace).  The
duplicate check compares the second raw name against the first *stripped*
name, misses, and both survive: the loaded map holds two enabled datasets
exposing the same tool name `"tool"`, refuting the claim's invariant. -/
theorem C5_whitespace_collision_counterexample :
    (_load_datasets
      [{ dataset_id := some "a", search_tool_name := " tool ",
         search_tool_description := some "d" },
       { dataset_id := some "b", search_tool_name := " tool ",
         search_tool_description := some "d" }]).map
      (fun p => (p.1, p.2.search_tool_name, p.2.search_tool_enabled))
      = [("a", "tool", true), ("b", "tool", true)] := by decide

/-- C5 (amended): when the configured search-tool names carry no surrounding
whitespace, the first-accepted dataset's tool name wins — the loaded map
never holds two datasets exposing the same search tool name (its tool-name
list is duplicate-free), and on a concrete exact-duplicate configuration
only the first dataset survives, the second being dropped without any
exception (the loader is total).  Names differing only by surrounding
whitespace evade the duplicate check, because accepted names are recorded
stripped but candidates are compared raw. -/
theorem C5_first_accepted_tool_name_wins (items : List Dataset)
    (h : ∀ it ∈ items, pyStrip it.search_tool_name = it.search_tool_name) :
    (toolNames (_load_datasets items)).Nodup
    ∧ (_load_datasets
        [{ dataset_id := some "a", search_tool_name := "tool",
           search_tool_description := some "d" },
         { dataset_id := some "b", search_tool_name := "tool",
           search_tool_description := some "d" }]).map
        (fun p => (p.1, p.2.search_tool_name)) = [("a", "tool")] := by
  refine ⟨?_, by decide⟩
  exact loadDatasetsLoop_toolNames_nodup items [] [] h (by simp) (by simp [toolNames])
    (by simp)

/-- C5 witness: the amended theorem applied to a concrete two-dataset
configuration with whitespace-free tool names. -/
theorem C5_witness :
    (toolNames (_load_datasets
      [{ dataset_id := some "a", search_tool_name := "tool",
         search_tool_description := some "d" },
       { dataset_id := some "b", search_tool_name := "tool2",
         search_tool_description := some "d" }])).Nodup :=
  (C5_first_accepted_tool_name_wins
    [{ dataset_id := some "a", search_tool_name := "tool",
       search_tool_description := some "d" },
     { dataset_id := some "b", search_tool_name := "tool2",
       search_tool_description := some "d" }] (by decide)).1

/-- C6: for each resolver type (string, int, float, bool), an explicit
usable value from the property dictionary wins over the environment variable
and the default; an explicit `None`, a blank string, or a value that fails
coercion behaves exactly as an absent key (falling through to the next
tier); a usable environment value wins over the default and an unusable one
falls through to it, for every one of the four types; and with nothing in
any tier the caller's default — `None` when none was given — is returned.
`Props.get_str_property` is the `MCPServerProperties` copy of the string
resolver. -/
theorem C6_resolver_precedence (props : PropsDict) (k : String) (e : Option String)
    (env : Env) :
    (∀ (d : Option String) (v : PVal), lookupProp props k = some v → v ≠ .pynone →
      ¬ isBlank (pyStr v) →
      Utils.get_str_property props k e env d = some (pyStr v)
        ∧ Props.get_str_property props k e env d = some (pyStr v))
    ∧ (∀ (d : Option String) (v : PVal), lookupProp props k = some v →
        (v = .pynone ∨ isBlank (pyStr v)) →
        Utils.get_str_property props k e env d = Utils.get_str_property [] k e env d)
    ∧ (∀ (d : Option String) (en w : String), ¬ isBlank en → getenv env en = some w →
        ¬ isBlank w → Utils.get_str_property [] k (some en) env d = some w)
    ∧ (∀ (d : Option String) (en : String), ¬ isBlank en →
        (getenv env en = none ∨ ∃ w, getenv env en = some w ∧ isBlank w) →
        Utils.get_str_property [] k (some en) env d = d)
    ∧ (∀ d : Option String, Utils.get_str_property [] k none env d = d)
    ∧ (∀ (d : Option Int) (n : Int), lookupProp props k = some (.pyint n) →
        Utils.get_int_property props k e env d = some n)
    ∧ (∀ (d : Option Int) (s : String) (n : Int), lookupProp props k = some (.pystr s) →
        pyParseInt (pyStrip s) = some n → pyStrip s ≠ "" →
        Utils.get_int_property props k e env d = some n)
    ∧ (∀ (d : Option Int) (s : String), lookupProp props k = some (.pystr s) →
        pyParseInt (pyStrip s) = none →
        Utils.get_int_property props k e env d = Utils.get_int_property [] k e env d)
    ∧ (∀ (d : Option Int) (en w : String) (n : Int), ¬ isBlank en →
        getenv env en = some w → ¬ isBlank w → pyParseInt w = some n →
        Utils.get_int_property [] k (some en) env d = some n)
    ∧ (∀ (d : Option Int) (en w : String), ¬ isBlank en → getenv env en = some w →
        pyParseInt w = none →
        Utils.get_int_property [] k (some en) env d = d)
    ∧ (∀ d : Option Int, Utils.get_int_property [] k none env d = d)
    ∧ (∀ (d : Option ℚ) (q : ℚ), lookupProp props k = some (.pyfloat q) →
        Utils.get_float_property props k e env d = some q)
    ∧ (∀ (d : Option ℚ) (s : String) (q : ℚ), lookupProp props k = some (.pystr s) →
        pyParseFloat (pyStrip s) = some q → pyStrip s ≠ "" →
        Utils.get_float_property props k e env d = some q)
    ∧ (∀ (d : Option ℚ) (s : String), lookupProp props k = some (.pystr s) →
        pyParseFloat (pyStrip s) = none →
        Utils.get_float_property props k e env d = Utils.get_float_property [] k e env d)
    ∧ (∀ (d : Option ℚ) (en w : String) (q : ℚ), ¬ isBlank en →
        getenv env en = some w → ¬ isBlank w → pyParseFloat w = some q →
        Utils.get_float_property [] k (some en) env d = some q)
    ∧ (∀ (d : Option ℚ) (en w : String), ¬ isBlank en → getenv env en = some w →
        pyParseFloat w = none →
        Utils.get_float_property [] k (some en) env d = d)
    ∧ (∀ d : Option ℚ, Utils.get_float_property [] k none env d = d)
    ∧ (∀ (d : Option Bool) (b : Bool), lookupProp props k = some (.pybool b) →
        Utils.get_bool_property props k e env d = some b)
    ∧ (∀ (d : Option Bool) (s : String) (b : Bool), lookupProp props k = some (.pystr s) →
        Utils.boolLiteral (pyLowerStrip s) = some b →
        Utils.get_bool_property props k e env d = some b)
    ∧ (∀ (d : Option Bool) (s : String), lookupProp props k = some (.pystr s) →
        Utils.boolLiteral (pyLowerStrip s) = none →
        Utils.get_bool_property props k e env d = Utils.get_bool_property [] k e env d)
    ∧ (∀ (d : Option Bool) (en w : String) (b : Bool), ¬ isBlank en →
        getenv env en = some w → Utils.boolLiteral (pyLowerStrip w) = some b →
        Utils.get_bool_property [] k (some en) env d = some b)
    ∧ (∀ (d : Option Bool) (en w : String), ¬ isBlank en → getenv env en = some w →
        Utils.boolLiteral (pyLowerStrip w) = none →
        Utils.get_bool_property [] k (some en) env d = d)
    ∧ (∀ d : Option Bool, Utils.get_bool_property [] k none env d = d) := by
  refine ⟨?_, ?_, ?_, ?_, ?_, ?_, ?_, ?_, ?_, ?_, ?_, ?_, ?_, ?_, ?_, ?_, ?_, ?_, ?_, ?_, ?_, ?_, ?_⟩
  · intro d v hlk hnn hnb
    cases v with
    | pynone => exact absurd rfl hnn
    | pystr s =>
      constructor <;> simp [Props.get_str_property, Utils.get_str_property, hlk, hnb]
    | pyint n =>
      constructor <;> simp [Props.get_str_property, Utils.get_str_property, hlk, hnb]
    | pybool b =>
      constructor <;> simp [Props.get_str_property, Utils.get_str_property, hlk, hnb]
    | pyfloat q =>
      constructor <;> simp [Props.get_str_property, Utils.get_str_property, hlk, hnb]
  · intro d v hlk hor
    rcases hor with rfl | hb
    · simp only [Utils.get_str_property, hlk]
      simp [lookupProp]
    · cases v with
      | pynone =>
        simp only [Utils.get_str_property, hlk]
        simp [lookupProp]
      | pystr s =>
        simp only [Utils.get_str_property, hlk]
        simp [hb, lookupProp]
      | pyint n =>
        simp only [Utils.get_str_property, hlk]
        simp [hb, lookupProp]
      | pybool b =>
        simp only [Utils.get_str_property, hlk]
        simp [hb, lookupProp]
      | pyfloat q =>
        simp only [Utils.get_str_property, hlk]
        simp [hb, lookupProp]
  · intro d en w hen hw hnb
    simp [Utils.get_str_property, envNameUsable, hen, hw, hnb, lookupProp]
  · intro d en hen hor
    rcases hor with hnone | ⟨w, hw, hb⟩
    · simp [Utils.get_str_property, envNameUsable, hen, hnone, lookupProp]
    · simp [Utils.get_str_property, envNameUsable, hen, hw, hb, lookupProp]
  · intro d
    simp [Utils.get_str_property, envNameUsable, lookupProp]
  · intro d n hlk
    simp [Utils.get_int_property, hlk, PVal.isinstance_int, PVal.toInt]
  · intro d s n hlk hp hnb
    simp [Utils.get_int_property, hlk, PVal.isinstance_int, pyStr, hnb, hp]
  · intro d s hlk hp
    by_cases hb : pyStrip s = ""
    · simp only [Utils.get_int_property, hlk]
      simp [PVal.isinstance_int, pyStr, hb, lookupProp]
    · simp only [Utils.get_int_property, hlk]
      simp [PVal.isinstance_int, pyStr, hb, hp, lookupProp]
  · intro d en w n hen hw hnb hp
    simp [Utils.get_int_property, envNameUsable, hen, hw, hnb, hp, lookupProp]
  · intro d en w hen hw hp
    by_cases hb : isBlank w <;>
      simp [Utils.get_int_property, envNameUsable, hen, hw, hb, hp, lookupProp]
  · intro d
    simp [Utils.get_int_property, envNameUsable, lookupProp]
  · intro d q hlk
    simp [Utils.get_float_property, hlk, PVal.isinstance_float, PVal.toRat]
  · intro d s q hlk hp hnb
    simp [Utils.get_float_property, hlk, PVal.isinstance_float, pyStr, hnb, hp]
  · intro d s hlk hp
    by_cases hb : pyStrip s = ""
    · simp only [Utils.get_float_property, hlk]
      simp [PVal.isinstance_float, pyStr, hb, lookupProp]
    · simp only [Utils.get_float_property, hlk]
      simp [PVal.isinstance_float, pyStr, hb, hp, lookupProp]
  · intro d en w q hen hw hnb hp
    simp [Utils.get_float_property, envNameUsable, hen, hw, hnb, hp, lookupProp]
  · intro d en w hen hw hp
    by_cases hb : isBlank w <;>
      simp [Utils.get_float_property, envNameUsable, hen, hw, hb, hp, lookupProp]
  · intro d
    simp [Utils.get_float_property, envNameUsable, lookupProp]
  · intro d b hlk
    simp [Utils.get_bool_property, hlk]
  · intro d s b hlk hbl
    simp [Utils.get_bool_property, hlk, hbl]
  · intro d s hlk hbl
    simp only [Utils.get_bool_property, hlk]
    simp [hbl, lookupProp]
  · intro d en w b hen hw hbl
    simp [Utils.get_bool_property, envNameUsable, hen, hw, hbl, lookupProp]
  · intro d en w hen hw hbl
    simp [Utils.get_bool_property, envNameUsable, hen, hw, hbl, lookupProp]
  · intro d
    simp [Utils.get_bool_property, envNameUsable, lookupProp]

/-- C6 witness: the precedence theorem applied at concrete dictionaries,
environments and defaults, one sample per conjunct — every tier of every
resolver type exercised. -/
theorem C6_witness :
    Utils.get_str_property [("k", .pystr "v")] "k" (some "E") [("E", "ev")] (some "dv")
        = some "v"
    ∧ Utils.get_str_property [("k", .pystr "  ")] "k" (some "E") [("E", "ev")] (some "dv")
        = Utils.get_str_property [] "k" (some "E") [("E", "ev")] (some "dv")
    ∧ Utils.get_str_property [] "k" (some "E") [("E", "ev")] (some "dv") = some "ev"
    ∧ Utils.get_str_property [] "k" (some "E") [("E", "   ")] (some "dv") = some "dv"
    ∧ Utils.get_str_property [] "k" none [] (none : Option String) = none
    ∧ Utils.get_int_property [("k", .pyint 5)] "k" (some "E") [("E", "7")] (some 9) = some 5
    ∧ Utils.get_int_property [("k", .pystr " 42 ")] "k" (some "E") [("E", "7")] (some 9)
        = some 42
    ∧ Utils.get_int_property [("k", .pystr "abc")] "k" (some "E") [("E", "7")] (some 9)
        = Utils.get_int_property [] "k" (some "E") [("E", "7")] (some 9)
    ∧ Utils.get_int_property [] "k" (some "E") [("E", "7")] (some 9) = some 7
    ∧ Utils.get_int_property [] "k" (some "E") [("E", "xx")] (some 9) = some 9
    ∧ Utils.get_int_property [] "k" none [] (none : Option Int) = none
    ∧ Utils.get_float_property [("k", .pyfloat (mkRat 3 2))] "k" (some "E") [("E", "7")]
        (some (mkRat 9 1)) = some (mkRat 3 2)
    ∧ Utils.get_float_property [("k", .pystr "1.5")] "k" (some "E") [("E", "7")]
        (some (mkRat 9 1)) = some (mkRat 3 2)
    ∧ Utils.get_float_property [("k", .pystr "abc")] "k" (some "E") [("E", "7")]
        (some (mkRat 9 1)) = Utils.get_float_property [] "k" (some "E") [("E", "7")]
        (some (mkRat 9 1))
    ∧ Utils.get_float_property [] "k" (some "E") [("E", "2.5")] (some (mkRat 9 1))
        = some (mkRat 5 2)
    ∧ Utils.get_float_property [] "k" (some "E") [("E", "abc")] (some (mkRat 9 1))
        = some (mkRat 9 1)
    ∧ Utils.get_float_property [] "k" none [] (none : Option ℚ) = none
    ∧ Utils.get_bool_property [("k", .pybool true)] "k" (some "E") [("E", "false")]
        (some false) = some true
    ∧ Utils.get_bool_property [("k", .pystr "Yes")] "k" (some "E") [("E", "false")]
        (some false) = some true
    ∧ Utils.get_bool_property [("k", .pystr "maybe")] "k" (some "E") [("E", "false")]
        (some true) = Utils.get_bool_property [] "k" (some "E") [("E", "false")]
        (some true)
    ∧ Utils.get_bool_property [] "k" (some "E") [("E", "off")] (some true) = some false
    ∧ Utils.get_bool_property [] "k" (some "E") [("E", "maybe")] (some true) = some true
    ∧ Utils.get_bool_property [] "k" none [] (none : Option Bool) = none := by
  refine ⟨?_, ?_, ?_, ?_, ?_, ?_, ?_, ?_, ?_, ?_, ?_, ?_, ?_, ?_, ?_, ?_, ?_, ?_, ?_, ?_, ?_, ?_, ?_⟩
  · exact ((C6_resolver_precedence [("k", .pystr "v")] "k" (some "E") [("E", "ev")]).1
      (some "dv") (.pystr "v") (by decide) (by decide) (by decide)).1
  · exact (C6_resolver_precedence [("k", .pystr "  ")] "k" (some "E") [("E", "ev")]).2.1
      (some "dv") (.pystr "  ") (by decide) (Or.inr (by decide))
  · exact (C6_resolver_precedence [] "k" (some "E") [("E", "ev")]).2.2.1
      (some "dv") "E" "ev" (by decide) (by decide) (by decide)
  · exact (C6_resolver_precedence [] "k" (some "E") [("E", "   ")]).2.2.2.1
      (some "dv") "E" (by decide) (Or.inr ⟨"   ", by decide, by decide⟩)
  · exact (C6_resolver_precedence [] "k" none []).2.2.2.2.1 none
  · exact (C6_resolver_precedence [("k", .pyint 5)] "k" (some "E") [("E", "7")]).2.2.2.2.2.1
      (some 9) 5 (by decide)
  · exact (C6_resolver_precedence [("k", .pystr " 42 ")] "k" (some "E") [("E", "7")]).2.2.2.2.2.2.1
      (some 9) " 42 " 42 (by decide) (by decide) (by decide)
  · exact (C6_resolver_precedence [("k", .pystr "abc")] "k" (some "E") [("E", "7")]).2.2.2.2.2.2.2.1
      (some 9) "abc" (by decide) (by decide)
  · exact (C6_resolver_precedence [] "k" (some "E") [("E", "7")]).2.2.2.2.2.2.2.2.1
      (some 9) "E" "7" 7 (by decide) (by decide) (by decide) (by decide)
  · exact (C6_resolver_precedence [] "k" (some "E") [("E", "xx")]).2.2.2.2.2.2.2.2.2.1
      (some 9) "E" "xx" (by decide) (by decide) (by decide)
  · exact (C6_resolver_precedence [] "k" none []).2.2.2.2.2.2.2.2.2.2.1 none
  · exact (C6_resolver_precedence [("k", .pyfloat (mkRat 3 2))] "k" (some "E") [("E", "7")]).2.2.2.2.2.2.2.2.2.2.2.1
      (some (mkRat 9 1)) (mkRat 3 2) (by decide)
  · exact (C6_resolver_precedence [("k", .pystr "1.5")] "k" (some "E") [("E", "7")]).2.2.2.2.2.2.2.2.2.2.2.2.1
      (some (mkRat 9 1)) "1.5" (mkRat 3 2) (by decide) (by decide) (by decide)
  · exact (C6_resolver_precedence [("k", .pystr "abc")] "k" (some "E") [("E", "7")]).2.2.2.2.2.2.2.2.2.2.2.2.2.1
      (some (mkRat 9 1)) "abc" (by decide) (by decide)
  · exact (C6_resolver_precedence [] "k" (some "E") [("E", "2.5")]).2.2.2.2.2.2.2.2.2.2.2.2.2.2.1
      (some (mkRat 9 1)) "E" "2.5" (mkRat 5 2) (by decide) (by decide) (by decide)
      (by decide)
  · exact (C6_resolver_precedence [] "k" (some "E") [("E", "abc")]).2.2.2.2.2.2.2.2.2.2.2.2.2.2.2.1
      (some (mkRat 9 1)) "E" "abc" (by decide) (by decide) (by decide)
  · exact (C6_resolver_precedence [] "k" none []).2.2.2.2.2.2.2.2.2.2.2.2.2.2.2.2.1 none
  · exact (C6_resolver_precedence [("k", .pybool true)] "k" (some "E") [("E", "false")]).2.2.2.2.2.2.2.2.2.2.2.2.2.2.2.2.2.1
      (some false) true (by decide)
  · exact (C6_resolver_precedence [("k", .pystr "Yes")] "k" (some "E") [("E", "false")]).2.2.2.2.2.2.2.2.2.2.2.2.2.2.2.2.2.2.1
      (some false) "Yes" true (by decide) (by decide)
  · exact (C6_resolver_precedence [("k", .pystr "maybe")] "k" (some "E") [("E", "false")]).2.2.2.2.2.2.2.2.2.2.2.2.2.2.2.2.2.2.2.1
      (some true) "maybe" (by decide) (by decide)
  · exact (C6_resolver_precedence [] "k" (some "E") [("E", "off")]).2.2.2.2.2.2.2.2.2.2.2.2.2.2.2.2.2.2.2.2.1
      (some true) "E" "off" false (by decide) (by decide) (by decide)
  · exact (C6_resolver_precedence [] "k" (some "E") [("E", "maybe")]).2.2.2.2.2.2.2.2.2.2.2.2.2.2.2.2.2.2.2.2.2.1
      (some true) "E" "maybe" (by decide) (by decide) (by decide)
  · exact (C6_resolver_precedence [] "k" none []).2.2.2.2.2.2.2.2.2.2.2.2.2.2.2.2.2.2.2.2.2.2 none

/-- The blank-query test of the handler, characterised. -/
theorem queryBad_iff (v : PVal) :
    (!v.truthy || !v.isinstance_str || isBlank (pyStr v)) = true ↔ ¬ IsNonBlankStr v := by
  cases v with
  | pystr s =>
    simp only [PVal.truthy, PVal.isinstance_str, pyStr, isBlank, IsNonBlankStr]
    constructor
    · rintro h ⟨t, ht, hnb⟩
      cases ht
      simp only [Bool.or_eq_true, Bool.not_eq_true', decide_eq_false_iff_not,
        beq_iff_eq] at h
      rcases h with (h | h) | h
      · simp only [ne_eq, Decidable.not_not] at h
        exact hnb (by rw [h]; rfl)
      · simp at h
      · exact hnb h
    · intro h
      simp only [Bool.or_eq_true, beq_iff_eq]
      by_cases hb : pyStrip s = ""
      · exact Or.inr hb
      · exact absurd ⟨s, rfl, hb⟩ h
  | pynone => simp [PVal.truthy, IsNonBlankStr]
  | pyint n => simp [PVal.truthy, PVal.isinstance_str, IsNonBlankStr]
  | pybool b => simp [PVal.truthy, PVal.isinstance_str, IsNonBlankStr]
  | pyfloat q => simp [PVal.truthy, PVal.isinstance_str, IsNonBlankStr]

/-- The `top_k` test of the handler, characterised. -/
theorem topkBad_iff (v : PVal) :
    (!v.truthy || !v.isinstance_int || decide (v.toInt < 1)) = true
      ↔ ¬ IsPositiveIntLike v := by
  cases v with
  | pyint n =>
    simp only [PVal.truthy, PVal.isinstance_int, PVal.toInt, IsPositiveIntLike]
    constructor
    · rintro h (⟨m, hm, h1⟩ | hb)
      · cases hm
        simp only [Bool.or_eq_true, Bool.not_eq_true', decide_eq_false_iff_not,
          decide_eq_true_eq] at h
        rcases h with (h | h) | h
        · simp only [ne_eq, Decidable.not_not] at h
          omega
        · simp at h
        · omega
      · simp at hb
    · intro h
      simp only [Bool.or_eq_true, Bool.not_eq_true', decide_eq_false_iff_not,
        decide_eq_true_eq]
      by_cases h1 : 1 ≤ n
      · exact absurd (Or.inl ⟨n, rfl, h1⟩) h
      · right
        omega
  | pybool b => cases b <;> simp [PVal.truthy, PVal.isinstance_int, PVal.toInt,
      IsPositiveIntLike]
  | pynone => simp [PVal.truthy, IsPositiveIntLike]
  | pystr s => simp [PVal.truthy, PVal.isinstance_int, IsPositiveIntLike]
  | pyfloat q => simp [PVal.truthy, PVal.isinstance_int, IsPositiveIntLike]

/-- The `score_threshold_enabled` test of the handler, characterised. -/
theorem steBad_iff (v : PVal) :
    (v == .pynone || !v.isinstance_bool) = true ↔ ¬ IsPyBool v := by
  cases v <;> simp [PVal.isinstance_bool, IsPyBool]

/-- The `score_threshold` test of the handler, characterised. -/
theorem stBad_iff (v : PVal) :
    (v ≠ .pynone && (!v.isinstance_float || decide (v.toRat < 0))) = true
      ↔ v ≠ .pynone ∧ ¬ IsNonNegFloat v := by
  cases v with
  | pyfloat q =>
    simp only [PVal.isinstance_float, PVal.toRat, IsNonNegFloat]
    constructor
    · intro h
      refine ⟨by simp, ?_⟩
      rintro ⟨r, hr, h0⟩
      cases hr
      simp only [Bool.and_eq_true, Bool.or_eq_true, decide_eq_true_eq] at h
      rcases h.2 with h2 | h2
      · simp at h2
      · exact absurd h0 (not_le.mpr h2)
    · rintro ⟨-, h⟩
      simp only [ne_eq, Bool.and_eq_true, Bool.or_eq_true, decide_eq_true_eq]
      refine ⟨by simp, Or.inr ?_⟩
      by_cases h0 : 0 ≤ q
      · exact absurd ⟨q, rfl, h0⟩ h
      · exact not_le.mp h0
  | pynone => simp [IsNonNegFloat]
  | pystr s => simp [PVal.isinstance_float, IsNonNegFloat]
  | pyint n => simp [PVal.isinstance_float, IsNonNegFloat]
  | pybool b => simp [PVal.isinstance_float, IsNonNegFloat]

/-- The `timeout` test of the handler, characterised. -/
theorem timeoutBad_iff (v : PVal) :
    (v ≠ .pynone && (!v.isinstance_int || decide (v.toInt < 1))) = true
      ↔ ¬ IsPositiveIntLikeOrNone v := by
  cases v with
  | pyint n =>
    simp only [PVal.isinstance_int, PVal.toInt, IsPositiveIntLikeOrNone, IsPositiveIntLike]
    constructor
    · rintro h (hn | ⟨m, hm, h1⟩ | hb)
      · simp at hn
      · cases hm
        simp only [ne_eq, Bool.and_eq_true, Bool.or_eq_true, decide_eq_true_eq] at h
        rcases h.2 with h2 | h2
        · simp at h2
        · omega
      · simp at hb
    · intro h
      push_neg at h
      simp only [ne_eq, Bool.and_eq_true, Bool.or_eq_true, decide_eq_true_eq]
      refine ⟨by simp, Or.inr ?_⟩
      exact h.2.1 n rfl
  | pybool b => cases b <;>
      simp [PVal.isinstance_int, PVal.toInt, IsPositiveIntLikeOrNone, IsPositiveIntLike]
  | pynone => simp [IsPositiveIntLikeOrNone]
  | pystr s => simp [PVal.isinstance_int, IsPositiveIntLikeOrNone, IsPositiveIntLike]
  | pyfloat q => simp [PVal.isinstance_int, IsPositiveIntLikeOrNone, IsPositiveIntLike]

/-- C7 counterexample: a call supplying the non-negative *integer* `1` as
`score_threshold` (with an otherwise valid argument map over a static-id
dataset) is rejected with `InvalidArgument`, although the claim says every
call supplying a non-negative number — integer or float — passes
validation: the check demands `isinstance(score_threshold, float)`. -/
theorem C7_integer_threshold_rejected :
    search_validate {} demoDataset [("query", .pystr "q"), ("score_threshold", .pyint 1)]
        = .error .invalidToolArgument
    ∧ (0 : Int) ≤ 1 := ⟨by decide, by decide⟩

/-- C7 (amended): the search handler raises `InvalidArgument` exactly when a
constraint is violated — query blank or not a string; dataset id blank or
not a string in dynamic-id mode; `top_k` not a positive Python `int`
(`True`, an `int` of value 1, passes); `score_threshold_enabled` not a
`bool`; `score_threshold` set and not a non-negative Python `float` (an
integer, even non-negative, is rejected); or, when the server's
timeout-parameter feature is enabled, `timeout` resolved to something other
than `None` or a positive `int` — note the `args.get` default for `timeout`
is the server's *float* timeout, which itself fails that check. -/
theorem C7_validation_iff (props : MCPServerProperties) (dataset : Dataset) (args : Args) :
    search_validate props dataset args = .error .invalidToolArgument
      ↔ (¬ IsNonBlankStr (argsGet args "query" (.pystr ""))
        ∨ (dataset.id_param_enabled = true
            ∧ ¬ IsNonBlankStr (argsGet args "knowledge_base_id" .pynone))
        ∨ ¬ IsPositiveIntLike (argsGet args "top_k" (.pyint dataset.default_top_k))
        ∨ ¬ IsPyBool (argsGet args "score_threshold_enabled"
            (.pybool dataset.default_score_threshold_enabled))
        ∨ (argsGet args "score_threshold" (.pyfloat dataset.default_score_threshold)
              ≠ .pynone
            ∧ ¬ IsNonNegFloat (argsGet args "score_threshold"
                (.pyfloat dataset.default_score_threshold)))
        ∨ (props.timeout_param_enabled = true
            ∧ ¬ IsPositiveIntLikeOrNone (argsGet args "timeout" (.pyfloat props.timeout)))) := by
  by_cases hd : dataset.id_param_enabled = true
  · simp only [search_validate, hd, if_true, Bool.true_and]
    split_ifs with h1 h2 h3 h4 h5 h6
    · exact iff_of_true rfl (Or.inl ((queryBad_iff _).mp h1))
    · exact iff_of_true rfl (Or.inr (Or.inl ⟨trivial, (queryBad_iff _).mp h2⟩))
    · exact iff_of_true rfl (Or.inr (Or.inr (Or.inl ((topkBad_iff _).mp h3))))
    · exact iff_of_true rfl (Or.inr (Or.inr (Or.inr (Or.inl ((steBad_iff _).mp h4)))))
    · exact iff_of_true rfl
        (Or.inr (Or.inr (Or.inr (Or.inr (Or.inl ((stBad_iff _).mp h5))))))
    · rw [Bool.and_eq_true] at h6
      exact iff_of_true rfl
        (Or.inr (Or.inr (Or.inr (Or.inr (Or.inr ⟨h6.1, (timeoutBad_iff _).mp h6.2⟩)))))
    · refine iff_of_false ?_ ?_
      · intro hc
        exact hc
      · rintro (h | ⟨-, h⟩ | h | h | h | ⟨hen, h⟩)
        · exact (not_congr (queryBad_iff _)).mp h1 h
        · exact (not_congr (queryBad_iff _)).mp h2 h
        · exact (not_congr (topkBad_iff _)).mp h3 h
        · exact (not_congr (steBad_iff _)).mp h4 h
        · exact (not_congr (stBad_iff _)).mp h5 h
        · exact h6 (by rw [Bool.and_eq_true]; exact ⟨hen, (timeoutBad_iff _).mpr h⟩)
  · have hd' : dataset.id_param_enabled = false := by
      revert hd
      cases dataset.id_param_enabled <;> simp
    simp only [search_validate, hd', if_false, Bool.false_and, Bool.false_eq_true]
    split_ifs with h1 h3 h4 h5 h6
    · exact iff_of_true rfl (Or.inl ((queryBad_iff _).mp h1))
    · exact iff_of_true rfl (Or.inr (Or.inr (Or.inl ((topkBad_iff _).mp h3))))
    · exact iff_of_true rfl (Or.inr (Or.inr (Or.inr (Or.inl ((steBad_iff _).mp h4)))))
    · exact iff_of_true rfl
        (Or.inr (Or.inr (Or.inr (Or.inr (Or.inl ((stBad_iff _).mp h5))))))
    · rw [Bool.and_eq_true] at h6
      exact iff_of_true rfl
        (Or.inr (Or.inr (Or.inr (Or.inr (Or.inr ⟨h6.1, (timeoutBad_iff _).mp h6.2⟩)))))
    · refine iff_of_false ?_ ?_
      · intro hc
        exact hc
      · rintro (h | ⟨hdd, -⟩ | h | h | h | ⟨hen, h⟩)
        · exact (not_congr (queryBad_iff _)).mp h1 h
        · exact hdd.elim
        · exact (not_congr (topkBad_iff _)).mp h3 h
        · exact (not_congr (steBad_iff _)).mp h4 h
        · exact (not_congr (stBad_iff _)).mp h5 h
        · exact h6 (by rw [Bool.and_eq_true]; exact ⟨hen, (timeoutBad_iff _).mpr h⟩)

/-- C8: a search call whose `query` argument resolves to an empty or blank
string — including a missing `query`, whose `args.get` default is `""` —
fails with `InvalidArgument` before the downstream client is invoked: the
client is called zero times, no request body is built, nothing is sent. -/
theorem C8_blank_query_no_network (props : MCPServerProperties)
    (bu bk : String) (dataset : Dataset) (args : Args) (resp : HttpResp) (s : String)
    (hq : argsGet args "query" (.pystr "") = .pystr s) (hb : pyStrip s = "") :
    (search_knowledge props bu bk dataset args resp).apiCalls = 0
    ∧ (search_knowledge props bu bk dataset args resp).httpSent = false
    ∧ (search_knowledge props bu bk dataset args resp).payload = none
    ∧ (search_knowledge props bu bk dataset args resp).outcome
        = .err .invalidToolArgument := by
  have hcond : (!(argsGet args "query" (.pystr "")).truthy
      || !(argsGet args "query" (.pystr "")).isinstance_str
      || isBlank (pyStr (argsGet args "query" (.pystr "")))) = true := by
    rw [hq]
    simp [PVal.truthy, PVal.isinstance_str, pyStr, isBlank, hb]
  have hval : search_validate props dataset args = .error .invalidToolArgument := by
    unfold search_validate
    rw [if_pos hcond]
  refine ⟨?_, ?_, ?_, ?_⟩ <;> simp [search_knowledge, hval]

/-- C8 witness: a concrete blank-query call over the demo dataset with a
successful downstream stub: the client would have succeeded, yet it is never
reached. -/
theorem C8_witness :
    (search_knowledge {} "bu" "bk" demoDataset [("query", .pystr "  ")] demoResp).apiCalls = 0
    ∧ (search_knowledge {} "bu" "bk" demoDataset [("query", .pystr "  ")] demoResp).httpSent
        = false
    ∧ (search_knowledge {} "bu" "bk" demoDataset [("query", .pystr "  ")] demoResp).payload
        = none
    ∧ (search_knowledge {} "bu" "bk" demoDataset [("query", .pystr "  ")] demoResp).outcome
        = .err .invalidToolArgument :=
  C8_blank_query_no_network {} "bu" "bk" demoDataset [("query", .pystr "  ")] demoResp
    "  " (by decide) (by decide)

/-- The fuel in `bitLenAux` is irrelevant once it is at least the argument. -/
theorem bitLenAux_eq_bit_length (n : Nat) : ∀ fuel, n ≤ fuel →
    bitLenAux fuel n = bit_length n := by
  induction n using Nat.strong_induction_on with
  | _ n ih =>
    intro fuel hf
    match n, fuel with
    | 0, 0 => rfl
    | 0, _ + 1 => rfl
    | m + 1, 0 => omega
    | m + 1, f + 1 =>
      have hdiv : (m + 1) / 2 < m + 1 := Nat.div_lt_self (Nat.succ_pos m) one_lt_two
      have h1 : bitLenAux f ((m + 1) / 2) = bit_length ((m + 1) / 2) :=
        ih _ hdiv _ (by omega)
      have h2 : bitLenAux m ((m + 1) / 2) = bit_length ((m + 1) / 2) :=
        ih _ hdiv _ (by omega)
      show bitLenAux f ((m + 1) / 2) + 1 = bitLenAux m ((m + 1) / 2) + 1
      rw [h1, h2]

/-- The binary-length recursion `bit_length (m+1) = bit_length ((m+1)/2) + 1`. -/
theorem bit_length_succ (m : Nat) :
    bit_length (m + 1) = bit_length ((m + 1) / 2) + 1 := by
  show bitLenAux m ((m + 1) / 2) + 1 = _
  rw [bitLenAux_eq_bit_length _ m (by omega)]

/-- `n < 2 ^ n.bit_length()`: the bit length bounds its argument. -/
theorem lt_two_pow_bit_length (n : Nat) : n < 2 ^ bit_length n := by
  induction n using Nat.strong_induction_on with
  | _ n ih =>
    match n with
    | 0 => exact Nat.one_pos
    | m + 1 =>
      rw [bit_length_succ]
      have hdiv : (m + 1) / 2 < m + 1 := Nat.div_lt_self (Nat.succ_pos m) one_lt_two
      have hq := ih _ hdiv
      have hmod := Nat.div_add_mod (m + 1) 2
      have hr : (m + 1) % 2 < 2 := Nat.mod_lt _ (by omega)
      rw [pow_succ]
      omega

/-- `bit_length` is the least bit count: any power of two above `n` has at
least as many bits. -/
theorem bit_length_le_of_lt_two_pow {n i : Nat} (h : n < 2 ^ i) :
    bit_length n ≤ i := by
  induction n using Nat.strong_induction_on generalizing i with
  | _ n ih =>
    match n with
    | 0 =>
      show bitLenAux 0 0 ≤ i
      exact Nat.zero_le i
    | m + 1 =>
      rw [bit_length_succ]
      match i with
      | 0 => omega
      | j + 1 =>
        have hdiv : (m + 1) / 2 < m + 1 := Nat.div_lt_self (Nat.succ_pos m) one_lt_two
        have hq : (m + 1) / 2 < 2 ^ j := by
          rw [pow_succ] at h
          omega
        exact Nat.succ_le_succ (ih _ hdiv hq)

/-- C9: on a retrieval call with no explicit probe count and a valid
`top_k`, the request body's `top_k` field is the code's
`max(2, 1 << ((top_k - 1).bit_length()))`, and that value is exactly
`max(2, least power of two ≥ top_k)`: it is the least member of the set of
powers of two that are at least 2 and at least `top_k`. -/
theorem C9_probe_count_least_pow2 (k : Int) (hk1 : 1 ≤ k) (hk2 : k ≤ 500)
    (resp : HttpResp) :
    ((RAGFlowKnowledgeAPI.retrieve_chunks "bu" "bk" (some "d") "q" (some "u") (some "key")
        k none (mkRat 6 10) false (some (mkRat 1 2)) resp).payload.map
      (fun p => p.top_k))
      = some ((max 2 (2 ^ bit_length (k - 1).toNat) : Nat) : Int)
    ∧ IsLeast {p : Int | (∃ i : Nat, p = 2 ^ i) ∧ 2 ≤ p ∧ k ≤ p}
        ((max 2 (2 ^ bit_length (k - 1).toNat) : Nat) : Int) := by
  constructor
  · have hcond : (decide (k < 1) || decide (k > 500)) = false := by
      simp only [Bool.or_eq_false_iff, decide_eq_false_iff_not, not_lt]
      omega
    cases resp <;>
      simp [RAGFlowKnowledgeAPI.retrieve_chunks, RAGFlowKnowledgeAPI.retrieveSend,
        isBlank, pyStrip, optBlank, hcond] <;>
      (try (split <;> exact ⟨_, rfl, rfl⟩))
  · set n : Nat := (k - 1).toNat with hn
    have hkn : k = (n : Int) + 1 := by
      rw [hn]
      omega
    constructor
    · refine ⟨⟨max 1 (bit_length n), ?_⟩, ?_, ?_⟩
      · rcases Nat.le_total 1 (bit_length n) with hb | hb
        · rw [max_eq_right hb, max_eq_right (by
            calc (2 : Nat) = 2 ^ 1 := rfl
            _ ≤ 2 ^ bit_length n := Nat.pow_le_pow_right (by omega) hb)]
          push_cast
          rfl
        · interval_cases hbl : bit_length n <;> simp
      · exact_mod_cast Nat.le_max_left 2 _
      · have hlt : n < 2 ^ bit_length n := lt_two_pow_bit_length n
        have : n + 1 ≤ max 2 (2 ^ bit_length n) := le_trans hlt (Nat.le_max_right 2 _)
        rw [hkn]
        exact_mod_cast this
    · rintro p ⟨⟨i, rfl⟩, h2, hkp⟩
      have hi1 : 1 ≤ i := by
        by_contra hc
        push_neg at hc
        interval_cases i
        norm_num at h2
      have hnp : (n : Int) < 2 ^ i := by omega
      have hnn : n < 2 ^ i := by
        have : ((2 : Int) ^ i) = ((2 ^ i : Nat) : Int) := by push_cast; rfl
        rw [this] at hnp
        exact_mod_cast hnp
      have hble : bit_length n ≤ i := bit_length_le_of_lt_two_pow hnn
      have : max 2 (2 ^ bit_length n) ≤ 2 ^ i := by
        refine max_le ?_ (Nat.pow_le_pow_right (by omega) hble)
        calc (2 : Nat) = 2 ^ 1 := rfl
        _ ≤ 2 ^ i := Nat.pow_le_pow_right (by omega) hi1
      have hcast : ((2 ^ i : Nat) : Int) = 2 ^ i := by push_cast; rfl
      calc ((max 2 (2 ^ bit_length n) : Nat) : Int) ≤ ((2 ^ i : Nat) : Int) := by
            exact_mod_cast this
      _ = 2 ^ i := hcast

/-- C9 witness: at `top_k = 5` the body's probe count is 8, the least power
of two that is at least 2 and at least 5; the code's formula also gives 2 at
`top_k = 1` and 4 at `top_k = 3`. -/
theorem C9_witness :
    ((RAGFlowKnowledgeAPI.retrieve_chunks "bu" "bk" (some "d") "q" (some "u") (some "key")
        5 none (mkRat 6 10) false (some (mkRat 1 2)) HttpResp.timeout).payload.map
      (fun p => p.top_k)) = some 8
    ∧ IsLeast {p : Int | (∃ i : Nat, p = 2 ^ i) ∧ 2 ≤ p ∧ 5 ≤ p} 8
    ∧ ((max 2 (2 ^ bit_length ((1 : Int) - 1).toNat) : Nat) : Int) = 2
    ∧ ((max 2 (2 ^ bit_length ((2 : Int) - 1).toNat) : Nat) : Int) = 2
    ∧ ((max 2 (2 ^ bit_length ((3 : Int) - 1).toNat) : Nat) : Int) = 4
    ∧ ((max 2 (2 ^ bit_length ((4 : Int) - 1).toNat) : Nat) : Int) = 4 := by
  have h := C9_probe_count_least_pow2 5 (by decide) (by decide) HttpResp.timeout
  have h8 : ((max 2 (2 ^ bit_length ((5 : Int) - 1).toNat) : Nat) : Int) = 8 := by decide
  exact ⟨h.1.trans (by decide), h8 ▸ h.2, by decide, by decide, by decide, by decide⟩

/-- C10: a search call whose `top_k` is an integer above 500 passes the
handler's positive-integer validation, but the client rejects it with a
code-400 `RAGFlowError` before building or sending any HTTP request, and the
pipeline surfaces it as `ToolAPIError` with that code — not as
`InvalidArgument`.  (The server timeout-parameter feature is off, its
default state.) -/
theorem C10_client_caps_topk_at_500 (props : MCPServerProperties) (bu bk : String)
    (resp : HttpResp) (t : Int) (hp : props.timeout_param_enabled = false)
    (ht : 500 < t) :
    search_knowledge props bu bk demoDataset
        [("query", .pystr "q"), ("top_k", .pyint t)] resp
      = ⟨1, false, none, .err (.toolAPIError (some 400))⟩ := by
  have h1 : ¬ (t < 1) := by omega
  have h2 : ¬ (t = 0) := by omega
  have h3 : ¬ ((mkRat 5 10 : ℚ) < 0) := by decide
  have hval : search_validate props demoDataset
      [("query", .pystr "q"), ("top_k", .pyint t)]
      = .ok { query := "q", dataset_id := some "d", top_k := t,
              score_threshold_enabled := false, score_threshold := some (mkRat 5 10),
              timeout := some props.timeout, base_url := some "u", api_key := some "k" } := by
    simp [search_validate, argsGet, demoDataset, hp, h1, h2, h3, PVal.truthy,
      PVal.isinstance_int, PVal.toInt, PVal.isinstance_str, PVal.isinstance_bool,
      PVal.isinstance_float, PVal.toRat, pyStr, isBlank, pyStrip, optFalsy,
      PVal.asStr, PVal.asOptStr, PVal.asBool, PVal.asOptRat]
  have hcap : (decide (t < 1) || decide (t > 500)) = true := by
    simp only [Bool.or_eq_true, decide_eq_true_eq]
    omega
  simp [search_knowledge, hval, RAGFlowKnowledgeAPI.retrieve_chunks, isBlank, pyStrip,
    optBlank, hcap]

/-- C10 witness: the theorem at `top_k = 501` with default server properties
and a downstream stub that would have succeeded. -/
theorem C10_witness :
    search_knowledge {} "bu" "bk" demoDataset
        [("query", .pystr "q"), ("top_k", .pyint 501)] demoResp
      = ⟨1, false, none, .err (.toolAPIError (some 400))⟩ :=
  C10_client_caps_topk_at_500 {} "bu" "bk" demoResp 501 (by decide) (by decide)

end Ragflow
